import Mathlib

/-!
Verification development for the status-tracker request-tracking core.

This file gives a shallow embedding, in Lean 4, of the core components of the
status-tracker service: the event correlator (`app/core/correlator.py`), the
lifecycle state machine (`app/core/state_machine.py`), the aggregate-state
calculator (`app/services/state_calculator.py`), the deletion orchestrator
(`app/services/deletion_orchestrator.py`) and the deletion verifier
(`app/services/deletion_verifier.py`), together with theorems settling the
specification claims about them.

Modelling conventions:
* The SQLAlchemy-backed store is modelled as a `List MediaRequest`; a `select`
  with a `where` clause is `List.filter`, `order_by(created_at.desc())` is a
  merge sort on the `created_at` field, and `Result.scalar_one_or_none()` is a
  function into `Except String (Option _)` that raises (returns `.error`) on
  more than one row, exactly as SQLAlchemy does.
* Python truthiness on optional values is made explicit (`truthy_nat`,
  `truthy_str`, `truthy_bool`): `None`, `0`, `""` and `False` are falsy.
* Calls to external service clients are parameters (`Env`, `VerifierEnv`)
  returning `Except String _`; a `.error` models a raised exception, which the
  embedded code catches exactly where the Python code has `try/except`.
* `datetime.utcnow()` is a `now : Nat` parameter.
* Fields that no embedded function reads (poster URLs, usernames, progress
  strings, raw payload capture, …) are omitted from the structures.
-/

namespace StatusTracker

/-- Lifecycle states of a media request (`app/models.py`, `RequestState`).
The Python enum also declares `INDEXED = "grabbing"` and
`DOWNLOAD_DONE = "downloaded"`; since Python enum members with equal values are
aliases, those are the *same* members as `GRABBING` and `DOWNLOADED`, so the
embedding has exactly eleven distinct states. -/
inductive RequestState where
  | requested
  | approved
  | grabbing
  | downloading
  | downloaded
  | importing
  | anime_matching
  | available
  | failed
  | timeout
  | match_failed
  deriving DecidableEq, Repr

/-- States of an individual episode (`app/models.py`, `EpisodeState`). -/
inductive EpisodeState where
  | grabbing
  | downloading
  | downloaded
  | importing
  | anime_matching
  | available
  | failed
  | match_failed
  deriving DecidableEq, Repr

/-- `app/models.py`, `MediaType`. -/
inductive MediaType where
  | movie
  | tv
  deriving DecidableEq, Repr

/-- Per-service sync status of a deletion (`app/models.py`, `ServiceSyncStatus`). -/
inductive ServiceSyncStatus where
  | pending
  | acknowledged
  | confirmed
  | verified
  | failed
  | skipped
  | not_needed
  | not_applicable
  deriving DecidableEq, Repr

/-- Overall status of a deletion operation (`app/models.py`, `DeletionStatus`). -/
inductive DeletionStatus where
  | in_progress
  | complete
  | incomplete
  deriving DecidableEq, Repr

/-- An episode row (`app/models.py`, `Episode`); only the `state` column is read
by the embedded functions. -/
structure Episode where
  state : EpisodeState
  deriving DecidableEq, Repr

/-- A media request row (`app/models.py`, `MediaRequest`), restricted to the
columns the embedded core reads. Optional columns are `Option`s. -/
structure MediaRequest where
  id : Nat
  title : String
  media_type : MediaType
  state : RequestState
  jellyseerr_id : Option Nat := none
  tmdb_id : Option Nat := none
  tvdb_id : Option Nat := none
  qbit_hash : Option String := none
  sonarr_id : Option Nat := none
  radarr_id : Option Nat := none
  shoko_series_id : Option Nat := none
  jellyfin_id : Option String := none
  is_anime : Option Bool := none
  created_at : Nat := 0
  updated_at : Nat := 0
  state_changed_at : Nat := 0
  episodes : List Episode := []
  deriving DecidableEq, Repr

/-- A timeline event row (`app/models.py`, `TimelineEvent`). -/
structure TimelineEvent where
  request_id : Nat
  service : String
  event_type : String
  state : RequestState
  details : Option String := none
  raw_data : Option String := none
  timestamp : Nat
  deriving DecidableEq, Repr

/-- Python truthiness of an optional integer: `None` and `0` are falsy. -/
def truthy_nat : Option Nat → Bool
  | some n => n != 0
  | none => false

/-- Python truthiness of an optional string: `None` and `""` are falsy. -/
def truthy_str : Option String → Bool
  | some s => s != ""
  | none => false

/-- Python truthiness of an optional boolean: `None` and `False` are falsy. -/
def truthy_bool : Option Bool → Bool
  | some b => b
  | none => false

/-- SQLAlchemy `Result.scalar_one_or_none()`: `None` for no row, the row if
there is exactly one, and a raised `MultipleResultsFound` otherwise. -/
def scalar_one_or_none : List α → Except String (Option α)
  | [] => Except.ok none
  | [x] => Except.ok (some x)
  | _ :: _ :: _ => Except.error "MultipleResultsFound"

/-- States that are considered "active" (not terminal)
(`app/core/correlator.py`, `ACTIVE_STATES`; the Python list names the alias
members `INDEXED` and `DOWNLOAD_DONE`, which are `grabbing` and `downloaded`). -/
def ACTIVE_STATES : List RequestState :=
  [RequestState.requested, RequestState.approved, RequestState.grabbing,
   RequestState.downloading, RequestState.downloaded, RequestState.importing,
   RequestState.anime_matching]

namespace EventCorrelator

/-- Rows matched by `find_by_jellyseerr_id`: the `where` clause of its select
(`correlator.py` lines 52-55). Note the filter is over
`ACTIVE_STATES + [AVAILABLE]`. -/
def jellyseerr_matches (db : List MediaRequest) (jellyseerr_id : Nat) :
    List MediaRequest :=
  db.filter fun r =>
    decide (r.jellyseerr_id = some jellyseerr_id ∧
      r.state ∈ ACTIVE_STATES ++ [RequestState.available])

/-- `EventCorrelator.find_by_jellyseerr_id` (`correlator.py` lines 48-57).
There is no `order_by` on this query. -/
def find_by_jellyseerr_id (db : List MediaRequest) (jellyseerr_id : Nat) :
    Except String (Option MediaRequest) :=
  scalar_one_or_none (jellyseerr_matches db jellyseerr_id)

/-- Insert into a sorted list (descending by `le`). -/
def insert_desc {α : Type} (le : α → α → Bool) (x : α) : List α → List α
  | [] => [x]
  | y :: ys => if le x y then x :: y :: ys else y :: insert_desc le x ys

/-- Insertion sort — a structurally recursive sort used to model SQL
`ORDER BY`; SQL leaves the order of ties unspecified, and nothing below
depends on it. -/
def insertion_sort {α : Type} (le : α → α → Bool) : List α → List α
  | [] => []
  | x :: xs => insert_desc le x (insertion_sort le xs)

/-- `order_by(MediaRequest.created_at.desc())`. -/
def sort_by_created_desc (rows : List MediaRequest) : List MediaRequest :=
  insertion_sort (fun a b => decide (b.created_at ≤ a.created_at)) rows

/-- Rows matched by `find_by_tmdb`: the `where` clause of its select
(`correlator.py` lines 63-66). -/
def tmdb_matches (db : List MediaRequest) (tmdb_id : Nat) : List MediaRequest :=
  db.filter fun r =>
    decide (r.tmdb_id = some tmdb_id ∧ r.state ∈ ACTIVE_STATES)

/-- `EventCorrelator.find_by_tmdb` (`correlator.py` lines 59-68). -/
def find_by_tmdb (db : List MediaRequest) (tmdb_id : Nat) :
    Except String (Option MediaRequest) :=
  scalar_one_or_none (sort_by_created_desc (tmdb_matches db tmdb_id))

/-- Rows matched by `find_by_tvdb` (`correlator.py` lines 74-77). -/
def tvdb_matches (db : List MediaRequest) (tvdb_id : Nat) : List MediaRequest :=
  db.filter fun r =>
    decide (r.tvdb_id = some tvdb_id ∧ r.state ∈ ACTIVE_STATES)

/-- `EventCorrelator.find_by_tvdb` (`correlator.py` lines 70-79). -/
def find_by_tvdb (db : List MediaRequest) (tvdb_id : Nat) :
    Except String (Option MediaRequest) :=
  scalar_one_or_none (sort_by_created_desc (tvdb_matches db tvdb_id))

/-- ASCII lower-casing of one character. -/
def char_lower (c : Char) : Char :=
  if 65 ≤ c.toNat ∧ c.toNat ≤ 90 then Char.ofNat (c.toNat + 32) else c

/-- ASCII lower-casing of a string (hashes are hexadecimal, so ASCII folding
is exactly the case-insensitivity SQL `ilike` applies to them). -/
def ascii_lower (s : String) : String :=
  String.mk (s.data.map char_lower)

/-- `EventCorrelator.find_by_hash` (`correlator.py` lines 81-92). The
`ilike` comparison, on a wildcard-free pattern such as a torrent hash, is
case-insensitive equality. There is no state filter on this query. -/
def find_by_hash (db : List MediaRequest) (qbit_hash : String) :
    Except String (Option MediaRequest) :=
  if qbit_hash = "" then Except.ok none
  else
    scalar_one_or_none
      (db.filter fun r =>
        decide (r.qbit_hash.map ascii_lower = some (ascii_lower qbit_hash)))

/-- `EventCorrelator.find_by_any` (`correlator.py` lines 94-126): tries
hash, then jellyseerr, then tmdb, then tvdb, with Python truthiness on each
optional argument, returning the first hit. -/
def find_by_any (db : List MediaRequest) (tmdb_id : Option Nat)
    (tvdb_id : Option Nat) (jellyseerr_id : Option Nat)
    (qbit_hash : Option String) : Except String (Option MediaRequest) := do
  if truthy_str qbit_hash then
    let request ← find_by_hash db (qbit_hash.getD "")
    if request.isSome then
      return request
  if truthy_nat jellyseerr_id then
    let request ← find_by_jellyseerr_id db (jellyseerr_id.getD 0)
    if request.isSome then
      return request
  if truthy_nat tmdb_id then
    let request ← find_by_tmdb db (tmdb_id.getD 0)
    if request.isSome then
      return request
  if truthy_nat tvdb_id then
    let request ← find_by_tvdb db (tvdb_id.getD 0)
    if request.isSome then
      return request
  return none

end EventCorrelator

/-- The episode-state priority table of `calculate_aggregate_state`
(`app/services/state_calculator.py` lines 65-71), highest priority first. -/
def state_priority : List (EpisodeState × RequestState) :=
  [(EpisodeState.anime_matching, RequestState.anime_matching),
   (EpisodeState.importing, RequestState.importing),
   (EpisodeState.downloaded, RequestState.downloaded),
   (EpisodeState.downloading, RequestState.downloading),
   (EpisodeState.grabbing, RequestState.grabbing)]

/-- The episode-list part of `calculate_aggregate_state`
(`state_calculator.py` lines 53-78): rule 1 (all available), rule 2 (any
failed), rule 3 (first priority state present), and the final fallback to the
request's current state. -/
def aggregate_from_states (fallback : RequestState)
    (states : List EpisodeState) : RequestState :=
  if states.all fun s => decide (s = EpisodeState.available) then
    RequestState.available
  else if states.any fun s => decide (s = EpisodeState.failed) then
    RequestState.failed
  else
    match state_priority.findSome? fun p =>
        if states.any fun s => decide (s = p.1) then some p.2 else none with
    | some req_state => req_state
    | none => fallback

/-- `calculate_aggregate_state` (`state_calculator.py` lines 20-78): movies
and TV shows without episodes return the current state unchanged; otherwise
the state is derived from the episode states. -/
def calculate_aggregate_state (request : MediaRequest) : RequestState :=
  if request.media_type = MediaType.movie then request.state
  else if request.episodes.isEmpty then request.state
  else aggregate_from_states request.state (request.episodes.map Episode.state)

/-- The valid-transition table (`app/core/state_machine.py`,
`VALID_TRANSITIONS` lines 26-47; the alias keys resolve as in
`RequestState`). -/
def VALID_TRANSITIONS : RequestState → List RequestState
  | RequestState.requested => [RequestState.approved, RequestState.failed]
  | RequestState.approved =>
      [RequestState.grabbing, RequestState.available, RequestState.failed]
  | RequestState.grabbing =>
      [RequestState.downloading, RequestState.importing, RequestState.failed]
  | RequestState.downloading =>
      [RequestState.downloaded, RequestState.failed, RequestState.timeout]
  | RequestState.downloaded =>
      [RequestState.importing, RequestState.anime_matching,
       RequestState.available, RequestState.failed]
  | RequestState.importing =>
      [RequestState.available, RequestState.anime_matching,
       RequestState.failed, RequestState.timeout]
  | RequestState.anime_matching =>
      [RequestState.available, RequestState.match_failed, RequestState.failed]
  | RequestState.available => [RequestState.failed]
  | RequestState.match_failed =>
      [RequestState.anime_matching, RequestState.available]
  | RequestState.failed => [RequestState.approved]
  | RequestState.timeout => [RequestState.approved]

namespace StateMachine

/-- `StateMachine.can_transition` (`state_machine.py` lines 62-67). -/
def can_transition (current target : RequestState) : Bool :=
  decide (target ∈ VALID_TRANSITIONS current)

/-- A registered state-change listener: receives the request and the old and
new states, and may raise. -/
def Listener : Type :=
  MediaRequest → RequestState → RequestState → Except String Unit

/-- Result of `StateMachine.transition`: the returned boolean, the request
after the call, the timeline-event table after the call, and the error log
produced by the listener loop. -/
structure TransitionResult where
  ok : Bool
  request : MediaRequest
  events : List TimelineEvent
  listener_log : List String
  deriving Repr

/-- The state/timestamp update a successful transition applies
(`state_machine.py` lines 104-107). -/
def transitioned_request (request : MediaRequest) (new_state : RequestState)
    (now : Nat) : MediaRequest :=
  { request with
    state := new_state, state_changed_at := now, updated_at := now }

/-- The timeline event a successful transition appends (lines 109-119). -/
def transition_event (request : MediaRequest) (new_state : RequestState)
    (service event_type : String) (details raw_data : Option String)
    (now : Nat) : TimelineEvent :=
  { request_id := request.id, service := service, event_type := event_type,
    state := new_state, details := details, raw_data := raw_data,
    timestamp := now }

/-- The listener loop (lines 127-131): run every listener on the updated
request, catching each exception and logging it. -/
def listener_error_log (listeners : List Listener) (request : MediaRequest)
    (old_state new_state : RequestState) : List String :=
  listeners.filterMap fun l =>
    match l request old_state new_state with
    | Except.ok _ => none
    | Except.error e => some ("State change listener error: " ++ e)

/-- `StateMachine.transition` (`state_machine.py` lines 69-133). On an invalid
transition it returns `False` before mutating anything; on a valid one it sets
the new state, refreshes both timestamps, appends one `TimelineEvent`, then
runs every listener, catching and logging any listener exception. -/
def transition (request : MediaRequest) (new_state : RequestState)
    (events : List TimelineEvent) (service event_type : String)
    (details : Option String) (raw_data : Option String)
    (listeners : List Listener) (now : Nat) : TransitionResult :=
  let old_state := request.state
  if !can_transition old_state new_state then
    { ok := false, request := request, events := events, listener_log := [] }
  else
    let request := transitioned_request request new_state now
    let event := transition_event request new_state service event_type details
      raw_data now
    let listener_log := listener_error_log listeners request old_state new_state
    { ok := true, request := request, events := events ++ [event],
      listener_log := listener_log }

end StateMachine

/-- A deletion sync event row (`app/models.py`, `DeletionSyncEvent`);
`api_response` is never set by the embedded code paths and is omitted. -/
structure DeletionSyncEvent where
  deletion_log_id : Nat
  service : String
  status : ServiceSyncStatus
  details : Option String := none
  error_message : Option String := none
  timestamp : Nat := 0
  deriving DecidableEq, Repr

/-- A deletion log row (`app/models.py`, `DeletionLog`), restricted to the
fields the orchestrator and verifier read or write. The `sync_events`
relationship is ordered by timestamp; since every write appends an event with
the latest timestamp, it is modelled as an append-only list. -/
structure DeletionLog where
  id : Nat
  title : String
  media_type : MediaType
  tmdb_id : Option Nat := none
  tvdb_id : Option Nat := none
  jellyfin_id : Option String := none
  sonarr_id : Option Nat := none
  radarr_id : Option Nat := none
  shoko_series_id : Option Nat := none
  jellyseerr_id : Option Nat := none
  qbit_hash : Option String := none
  is_anime : Option Bool := none
  status : DeletionStatus := DeletionStatus.in_progress
  initiated_at : Nat := 0
  completed_at : Option Nat := none
  sync_events : List DeletionSyncEvent := []
  deriving DecidableEq, Repr

/-- Append a `DeletionSyncEvent` to a log
(`DeletionOrchestrator._add_sync_event` / `DeletionVerifier._add_sync_event`). -/
def add_sync_event (log : DeletionLog) (event : DeletionSyncEvent) : DeletionLog :=
  { log with sync_events := log.sync_events ++ [event] }

/-- One step of the `service_statuses` dictionary build: Python's
`service_statuses[event.service] = event.status`. -/
def upsert_status (m : List (String × ServiceSyncStatus)) (service : String)
    (status : ServiceSyncStatus) : List (String × ServiceSyncStatus) :=
  if m.any fun p => decide (p.1 = service) then
    m.map fun p => if decide (p.1 = service) then (p.1, status) else p
  else m ++ [(service, status)]

/-- The "latest status per service" dictionary built by both
`DeletionOrchestrator._update_deletion_status` and
`DeletionVerifier._check_completion` ("last event wins"). -/
def service_statuses (events : List DeletionSyncEvent) :
    List (String × ServiceSyncStatus) :=
  events.foldl (fun m e => upsert_status m e.service e.status) []

/-- The fixed set of known services, in the order of the dict literal in
`DeletionOrchestrator._determine_services` — which is also the sync order of
`_sync_external_services` (`deletion_orchestrator.py` lines 342-353). -/
def known_services : List String :=
  ["sonarr", "radarr", "shoko", "jellyfin", "jellyseerr"]

/-- Per-service classification record built by `_determine_services`. -/
structure ServiceInfo where
  applicable : Bool
  has_id : Bool
  skip : Bool
  deriving DecidableEq, Repr

namespace DeletionOrchestrator

/-- `DeletionOrchestrator._determine_services` (`deletion_orchestrator.py`
lines 274-326). For `shoko`, `applicable` is the Python truthiness of the
optional `is_anime` flag and `has_id` is literally `True`. -/
def _determine_services (request : MediaRequest) (skip_services : List String) :
    List (String × ServiceInfo) :=
  let is_tv := decide (request.media_type = MediaType.tv)
  let is_movie := decide (request.media_type = MediaType.movie)
  [("sonarr",
    { applicable := is_tv, has_id := request.sonarr_id.isSome,
      skip := decide ("sonarr" ∈ skip_services) }),
   ("radarr",
    { applicable := is_movie, has_id := request.radarr_id.isSome,
      skip := decide ("radarr" ∈ skip_services) }),
   ("shoko",
    { applicable := truthy_bool request.is_anime, has_id := true,
      skip := decide ("shoko" ∈ skip_services) }),
   ("jellyfin",
    { applicable := true, has_id := request.jellyfin_id.isSome,
      skip := decide ("jellyfin" ∈ skip_services) }),
   ("jellyseerr",
    { applicable := true, has_id := request.jellyseerr_id.isSome,
      skip := decide ("jellyseerr" ∈ skip_services) })]

/-- `DeletionOrchestrator._get_services_to_sync` (lines 328-333). -/
def _get_services_to_sync (services_info : List (String × ServiceInfo)) :
    List String :=
  (services_info.filter fun p => p.2.applicable && p.2.has_id && !p.2.skip).map
    Prod.fst

/-- The status assigned by the phase-1 `if/elif` chain of `delete_request`
(`deletion_orchestrator.py` lines 136-168). -/
def phase1_status (info : ServiceInfo) : ServiceSyncStatus :=
  if !info.applicable then ServiceSyncStatus.not_applicable
  else if info.skip then ServiceSyncStatus.skipped
  else if !info.has_id then ServiceSyncStatus.not_needed
  else ServiceSyncStatus.pending

/-- The human-readable detail written by the same `if/elif` chain. -/
def phase1_details (service : String) (info : ServiceInfo) : String :=
  if !info.applicable then
    service.capitalize ++ " not applicable for this media type"
  else if info.skip then
    "Skipped (deletion originated from " ++ service ++ ")"
  else if !info.has_id then
    "No " ++ service ++ " ID found for this item"
  else
    "Waiting to sync with " ++ service

/-- The initial sync events created for ALL services in phase 1 of
`delete_request` (lines 135-168): one event per entry of
`_determine_services`, in dict order. -/
def phase1_events (log_id : Nat)
    (services_info : List (String × ServiceInfo)) (now : Nat) :
    List DeletionSyncEvent :=
  services_info.map fun p =>
    { deletion_log_id := log_id, service := p.1, status := phase1_status p.2,
      details := some (phase1_details p.1 p.2), timestamp := now }

/-- The external service clients reachable from `_sync_service`, as pure
parameters. A `(success, message)` pair models the clients' tuple results and
an `Except.error` models a raised exception. `enable_deletion_sync` is
`settings.ENABLE_DELETION_SYNC`. -/
structure Env where
  enable_deletion_sync : Bool
  sonarr_delete_series : Nat → Bool → Except String (Bool × String)
  radarr_delete_movie : Nat → Bool → Except String (Bool × String)
  shoko_remove_missing_files : Unit → Except String (Bool × String)
  jellyfin_delete_item : String → Except String (Bool × String)
  jellyseerr_delete_request : Nat → Except String (Bool × String)
  jellyseerr_get_media_id_by_tmdb :
    Option Nat → String → Except String (Option Nat)
  jellyseerr_delete_media : Nat → Except String (Bool × String)

/-- Outcome of the `try` block of `_sync_service`: either the
`(success, message)` pair it computes, or one of the two `return`s that skip
a service when `delete_files` is false. -/
inductive SyncAttempt where
  | result (success : Bool) (message : String)
  | early_skip (details : String)
  deriving DecidableEq, Repr

/-- The body of the `try` block of `_sync_service` (`deletion_orchestrator.py`
lines 381-453), with the Python truthiness checks made explicit. An
`Except.error` is an exception escaping the block. -/
def sync_body (log : DeletionLog) (service : String) (delete_files : Bool)
    (env : Env) : Except String SyncAttempt := do
  if service = "sonarr" ∧ truthy_nat log.sonarr_id then
    let r ← env.sonarr_delete_series (log.sonarr_id.getD 0) delete_files
    return SyncAttempt.result r.1 r.2
  else if service = "radarr" ∧ truthy_nat log.radarr_id then
    let r ← env.radarr_delete_movie (log.radarr_id.getD 0) delete_files
    return SyncAttempt.result r.1 r.2
  else if service = "shoko" ∧ truthy_bool log.is_anime then
    if delete_files then
      let r ← env.shoko_remove_missing_files ()
      return SyncAttempt.result r.1 r.2
    else
      return SyncAttempt.early_skip "Files retained on disk - Shoko unchanged"
  else if service = "jellyfin" ∧ truthy_str log.jellyfin_id then
    if delete_files then
      let r ← env.jellyfin_delete_item (log.jellyfin_id.getD "")
      return SyncAttempt.result r.1 r.2
    else
      return SyncAttempt.early_skip "Files retained on disk - Jellyfin unchanged"
  else if service = "jellyseerr" then
    let req ←
      if truthy_nat log.jellyseerr_id then do
        let r ← env.jellyseerr_delete_request (log.jellyseerr_id.getD 0)
        pure (r.1, "Request: " ++ r.2)
      else
        pure (true, "Request: No ID (skipped)")
    let media_type_str :=
      if log.media_type = MediaType.movie then "movie" else "tv"
    let media_id ← env.jellyseerr_get_media_id_by_tmdb log.tmdb_id media_type_str
    let media ←
      if truthy_nat media_id then do
        let r ← env.jellyseerr_delete_media (media_id.getD 0)
        pure (r.1, "Media: " ++ r.2)
      else
        pure (true, "Media: No entry found (already cleared)")
    return SyncAttempt.result (req.1 && media.1) (req.2 ++ "; " ++ media.2)
  else
    return SyncAttempt.result true "No ID available for this service"

/-- `_sync_service`'s `try/except`: an exception becomes a failed result with
an `Exception: …` message (lines 454-457). -/
def sync_attempt (log : DeletionLog) (service : String) (delete_files : Bool)
    (env : Env) : SyncAttempt :=
  match sync_body log service delete_files env with
  | Except.ok a => a
  | Except.error e => SyncAttempt.result false ("Exception: " ++ e)

/-- The events `_sync_service` appends for one service: the `ACKNOWLEDGED`
event, then `SKIPPED` (early return), `CONFIRMED` (success) or `FAILED`
(failure, with the error captured in `error_message`). -/
def sync_chunk (log : DeletionLog) (service : String) (delete_files : Bool)
    (env : Env) (now : Nat) : List DeletionSyncEvent :=
  let ack : DeletionSyncEvent :=
    { deletion_log_id := log.id, service := service,
      status := ServiceSyncStatus.acknowledged,
      details := some ("Sending DELETE request to " ++ service),
      timestamp := now }
  match sync_attempt log service delete_files env with
  | SyncAttempt.early_skip d =>
      [ack,
       { deletion_log_id := log.id, service := service,
         status := ServiceSyncStatus.skipped, details := some d,
         timestamp := now }]
  | SyncAttempt.result true m =>
      [ack,
       { deletion_log_id := log.id, service := service,
         status := ServiceSyncStatus.confirmed, details := some m,
         timestamp := now }]
  | SyncAttempt.result false m =>
      [ack,
       { deletion_log_id := log.id, service := service,
         status := ServiceSyncStatus.failed, error_message := some m,
         timestamp := now }]

/-- `DeletionOrchestrator._sync_service` (lines 362-475). -/
def _sync_service (log : DeletionLog) (service : String) (delete_files : Bool)
    (env : Env) (now : Nat) : DeletionLog :=
  { log with
    sync_events := log.sync_events ++ sync_chunk log service delete_files env now }

/-- `_update_deletion_status`'s set of in-progress statuses (lines 500-504). -/
def in_progress_states : List ServiceSyncStatus :=
  [ServiceSyncStatus.pending, ServiceSyncStatus.acknowledged]

/-- `DeletionOrchestrator._update_deletion_status` (lines 481-528): recompute
the overall status from the latest status of each service, stamping
`completed_at` when no service is still in progress. -/
def _update_deletion_status (log : DeletionLog) (now : Nat) : DeletionLog :=
  let statuses := service_statuses log.sync_events
  let has_failed := statuses.any fun p => decide (p.2 = ServiceSyncStatus.failed)
  let has_in_progress := statuses.any fun p => decide (p.2 ∈ in_progress_states)
  if has_in_progress then
    { log with status := DeletionStatus.in_progress }
  else if has_failed then
    { log with status := DeletionStatus.incomplete, completed_at := some now }
  else
    { log with status := DeletionStatus.complete, completed_at := some now }

/-- `DeletionOrchestrator._sync_external_services` (lines 335-360): services
are synced in the fixed order sonarr, radarr, shoko, jellyfin, jellyseerr
(the five `if … in services` appends amount to filtering `known_services`),
then the overall status is recomputed (`_check_completion` just calls
`_update_deletion_status`). -/
def _sync_external_services (log : DeletionLog) (services : List String)
    (delete_files : Bool) (env : Env) (now : Nat) : DeletionLog :=
  let ordered_services := known_services.filter fun s => decide (s ∈ services)
  let log := ordered_services.foldl
    (fun lg s => _sync_service lg s delete_files env now) log
  _update_deletion_status log now

/-- `DeletionOrchestrator._create_deletion_log` (lines 214-249), restricted to
the fields the sync and verification logic reads. `log_id` is the primary key
the flush assigns. -/
def _create_deletion_log (log_id : Nat) (request : MediaRequest) (now : Nat) :
    DeletionLog :=
  { id := log_id, title := request.title, media_type := request.media_type,
    tmdb_id := request.tmdb_id, tvdb_id := request.tvdb_id,
    jellyfin_id := request.jellyfin_id, sonarr_id := request.sonarr_id,
    radarr_id := request.radarr_id, shoko_series_id := request.shoko_series_id,
    jellyseerr_id := request.jellyseerr_id, qbit_hash := request.qbit_hash,
    is_anime := request.is_anime, status := DeletionStatus.in_progress,
    initiated_at := now, completed_at := none, sync_events := [] }

/-- The deletion log as it stands after phase 1 of `delete_request`: the
snapshot plus the initial per-service sync events. -/
def phase1_log (request : MediaRequest) (skip_services : List String)
    (log_id : Nat) (now : Nat) : DeletionLog :=
  let deletion_log := _create_deletion_log log_id request now
  { deletion_log with
    sync_events :=
      deletion_log.sync_events ++
        phase1_events log_id (_determine_services request skip_services) now }

/-- The work `delete_request` does once the request has been loaded
(`deletion_orchestrator.py` lines 121-203, with the phase-2 store deletion
handled by the caller): snapshot into a `DeletionLog`, create one sync event
per known service, then — if the sync switch is on — sync each pending
service in fixed order and recompute the overall status; otherwise mark every
pending service `SKIPPED` and recompute. Broadcasts are not modelled (they do
not touch the store). -/
def orchestrated_log (request : MediaRequest) (delete_files : Bool)
    (skip_services : List String) (env : Env) (log_id : Nat) (now : Nat) :
    DeletionLog :=
  let deletion_log := phase1_log request skip_services log_id now
  let services_to_sync :=
    _get_services_to_sync (_determine_services request skip_services)
  if env.enable_deletion_sync then
    _sync_external_services deletion_log services_to_sync delete_files env now
  else
    let deletion_log := services_to_sync.foldl
      (fun lg s =>
        add_sync_event lg
          { deletion_log_id := lg.id, service := s,
            status := ServiceSyncStatus.skipped,
            details := some "Deletion sync disabled", timestamp := now })
      deletion_log
    _update_deletion_status deletion_log now

/-- `DeletionOrchestrator.delete_request` (`deletion_orchestrator.py` lines
90-203). Phase 1: load the request (`None` if absent, via the same
`scalar_one_or_none` select as `_get_request`) and build the log and its
initial events; phase 2: hard-delete the request from the store; phase 3:
best-effort remote sync (see `orchestrated_log`). -/
def delete_request (db : List MediaRequest) (request_id : Nat)
    (delete_files : Bool) (skip_services : List String) (env : Env)
    (log_id : Nat) (now : Nat) :
    Except String (Option DeletionLog × List MediaRequest) := do
  let found ← scalar_one_or_none (db.filter fun r => decide (r.id = request_id))
  match found with
  | none => return (none, db)
  | some request =>
    return (some (orchestrated_log request delete_files skip_services env
        log_id now),
      db.filter fun r => decide (¬ r.id = request_id))

end DeletionOrchestrator

namespace DeletionVerifier

/-- `deletion_verifier.py`, `MAX_RETRIES`. -/
def MAX_RETRIES : Nat := 3

/-- The verifier's external lookups (`get_series`, `get_movie`, `get_item`,
`get_request`): `some _` means the item still exists, `none` that it is gone,
`Except.error` a raised exception. Indexed by pass number so that each retry
can observe a different remote state. -/
structure VerifierEnv where
  sonarr_get_series : Nat → Except String (Option Unit)
  radarr_get_movie : Nat → Except String (Option Unit)
  jellyfin_get_item : String → Except String (Option Unit)
  jellyseerr_get_request : Nat → Except String (Option Unit)

/-- The `try` block of `_verify_service` (`deletion_verifier.py` lines
155-179): compute `still_exists` for one service. -/
def verify_outcome (log : DeletionLog) (service : String) (venv : VerifierEnv) :
    Except String Bool := do
  if service = "sonarr" ∧ truthy_nat log.sonarr_id then
    let series ← venv.sonarr_get_series (log.sonarr_id.getD 0)
    return series.isSome
  else if service = "radarr" ∧ truthy_nat log.radarr_id then
    let movie ← venv.radarr_get_movie (log.radarr_id.getD 0)
    return movie.isSome
  else if service = "jellyfin" ∧ truthy_str log.jellyfin_id then
    let item ← venv.jellyfin_get_item (log.jellyfin_id.getD "")
    return item.isSome
  else if service = "jellyseerr" ∧ truthy_nat log.jellyseerr_id then
    let request ← venv.jellyseerr_get_request (log.jellyseerr_id.getD 0)
    return request.isSome
  else if service = "shoko" then
    return false
  else
    return false

/-- The event `_verify_service` appends and the boolean it returns (lines
181-204): `VERIFIED` when the item is gone, `FAILED` when it still exists,
and `FAILED` carrying the exception text when the check raised (an empty
exception text falls back to the generic message, via `error_message or …`). -/
def verify_chunk (log : DeletionLog) (service : String) (venv : VerifierEnv)
    (now : Nat) : List DeletionSyncEvent × Bool :=
  match verify_outcome log service venv with
  | Except.ok false =>
      ([{ deletion_log_id := log.id, service := service,
          status := ServiceSyncStatus.verified,
          details := some "Verified: item not found in service",
          timestamp := now }], true)
  | Except.ok true =>
      ([{ deletion_log_id := log.id, service := service,
          status := ServiceSyncStatus.failed,
          error_message := some "Item still exists in service",
          timestamp := now }], false)
  | Except.error e =>
      ([{ deletion_log_id := log.id, service := service,
          status := ServiceSyncStatus.failed,
          error_message :=
            some (if e = "" then "Item still exists in service" else e),
          timestamp := now }], false)

/-- `DeletionVerifier._verify_service` (lines 142-204). -/
def _verify_service (log : DeletionLog) (service : String) (venv : VerifierEnv)
    (now : Nat) : DeletionLog × Bool :=
  let r := verify_chunk log service venv now
  ({ log with sync_events := log.sync_events ++ r.1 }, r.2)

/-- The services a verification pass re-checks: every service having *some*
sync event with status `CONFIRMED` (`verify_deletion` lines 100-104; the
Python `set` is modelled as a deduplicated list — per-service behaviour does
not depend on the set's iteration order). -/
def services_to_verify (log : DeletionLog) : List String :=
  ((log.sync_events.filter fun e =>
      decide (e.status = ServiceSyncStatus.confirmed)).map
    DeletionSyncEvent.service).dedup

/-- The verifier's terminal-status set (`DeletionVerifier._check_completion`,
`deletion_verifier.py` lines 237-242). Note it does NOT contain
`NOT_APPLICABLE`. -/
def terminal_states : List ServiceSyncStatus :=
  [ServiceSyncStatus.verified, ServiceSyncStatus.failed,
   ServiceSyncStatus.skipped, ServiceSyncStatus.not_needed]

/-- `DeletionVerifier._check_completion` (lines 227-252): stamp
`completed_at` when the latest status of every service is in
`terminal_states` and the stamp is not already set. -/
def _check_completion (log : DeletionLog) (now : Nat) : DeletionLog :=
  let all_done := (service_statuses log.sync_events).all fun p =>
    decide (p.2 ∈ terminal_states)
  if all_done && log.completed_at.isNone then
    { log with completed_at := some now }
  else log

/-- One verification sweep over `services_to_verify` (the `for` loop of
`verify_deletion`, lines 110-115), returning the updated log and the
`all_verified` flag. -/
def verify_pass (log : DeletionLog) (venv : VerifierEnv) (now : Nat) :
    DeletionLog × Bool :=
  (services_to_verify log).foldl
    (fun acc s =>
      let r := _verify_service acc.1 s venv now
      (r.1, acc.2 && r.2))
    (log, true)

/-- The recursion of `verify_deletion`, made structural on a fuel argument:
the retry guard `retry_count < MAX_RETRIES` bounds the recursion depth by
`MAX_RETRIES + 1 - retry_count`, so with that fuel the zero-fuel case is
never reached. -/
def verify_go (venvs : Nat → VerifierEnv) (now : Nat) :
    Nat → Nat → DeletionLog → DeletionLog
  | 0, _, log => log
  | fuel + 1, retry_count, log =>
    if (services_to_verify log).isEmpty then log
    else if !(verify_pass log (venvs retry_count) now).2 &&
        decide (retry_count < MAX_RETRIES) then
      verify_go venvs now fuel (retry_count + 1)
        (_check_completion (verify_pass log (venvs retry_count) now).1 now)
    else _check_completion (verify_pass log (venvs retry_count) now).1 now

/-- `DeletionVerifier.verify_deletion` (lines 78-131): if there is nothing to
verify, return immediately (without touching `completed_at`); otherwise run a
pass, check completion, and retry (against the next pass's remote state) while
some service failed verification and fewer than `MAX_RETRIES` retries were
used. -/
def verify_deletion (log : DeletionLog) (venvs : Nat → VerifierEnv)
    (retry_count : Nat) (now : Nat) : DeletionLog :=
  verify_go venvs now (MAX_RETRIES + 1 - retry_count) retry_count log

end DeletionVerifier

/-- The combined deletion flow the specification describes: orchestration
(`DeletionOrchestrator.delete_request`) followed by the scheduled
verification (`schedule_verification` → `DeletionVerifier.verify_deletion`,
starting at retry 0). -/
def delete_and_verify (db : List MediaRequest) (request_id : Nat)
    (delete_files : Bool) (skip_services : List String)
    (env : DeletionOrchestrator.Env)
    (venvs : Nat → DeletionVerifier.VerifierEnv) (log_id : Nat) (now : Nat) :
    Except String (Option DeletionLog × List MediaRequest) := do
  let res ← DeletionOrchestrator.delete_request db request_id delete_files
    skip_services env log_id now
  match res.1 with
  | none => return res
  | some log =>
      return (some (DeletionVerifier.verify_deletion log venvs 0 now), res.2)

/-- The per-service sequence of sync statuses recorded in a list of events,
in write order. -/
def status_history (events : List DeletionSyncEvent) (service : String) :
    List ServiceSyncStatus :=
  (events.filter fun e => decide (e.service = service)).map
    DeletionSyncEvent.status

/-! ### Specification-side definitions

These definitions transcribe the *claims'* wording (not the source); they
exist to be compared against the behaviour of the embedded code. -/

/-- The terminal-status set named by the specification sentence "Overall
DeletionLog completion timestamp is set once every service has reached a
terminal status (`VERIFIED | FAILED | SKIPPED | NOT_NEEDED |
NOT_APPLICABLE`)". -/
def claimed_terminal_states : List ServiceSyncStatus :=
  [ServiceSyncStatus.verified, ServiceSyncStatus.failed,
   ServiceSyncStatus.skipped, ServiceSyncStatus.not_needed,
   ServiceSyncStatus.not_applicable]

/-- The per-service status histories allowed by the claimed invariant, taken
literally: forward progress through the lattice
`PENDING → ACKNOWLEDGED → (CONFIRMED → VERIFIED) | FAILED`, or an *immediate*
short-circuit to `SKIPPED`, `NOT_NEEDED` or `NOT_APPLICABLE`, with no later
event moving a service backwards or out of a lattice-terminal status. -/
def claim_lattice_history (h : List ServiceSyncStatus) : Bool :=
  decide (h ∈
    ([[],
      [ServiceSyncStatus.pending],
      [ServiceSyncStatus.pending, ServiceSyncStatus.acknowledged],
      [ServiceSyncStatus.pending, ServiceSyncStatus.acknowledged,
       ServiceSyncStatus.confirmed],
      [ServiceSyncStatus.pending, ServiceSyncStatus.acknowledged,
       ServiceSyncStatus.confirmed, ServiceSyncStatus.verified],
      [ServiceSyncStatus.pending, ServiceSyncStatus.acknowledged,
       ServiceSyncStatus.failed],
      [ServiceSyncStatus.skipped],
      [ServiceSyncStatus.not_needed],
      [ServiceSyncStatus.not_applicable]] : List (List ServiceSyncStatus)))

/-! ### The status-history grammar derived from the code

`GoodHist` describes the per-service status sequences the
orchestrate-then-verify flow can actually write; it is the corrected form of
the claimed lattice. -/

/-- A per-service status history the combined deletion flow can write:
empty (service never touched); a single short-circuit status; `PENDING`
followed directly by `SKIPPED` (deletion sync disabled); `PENDING,
ACKNOWLEDGED` closed by a sync `FAILED` or by the `delete_files = false`
`SKIPPED` carve-out; or `PENDING, ACKNOWLEDGED, CONFIRMED` followed by one
`VERIFIED`/`FAILED` result per verification pass that re-checked the service
(every pass re-checks every ever-`CONFIRMED` service, so a verification
`FAILED` may later be followed by `VERIFIED`, and `VERIFIED` may repeat). -/
inductive GoodHist : List ServiceSyncStatus → Prop where
  | nil : GoodHist []
  | short (st : ServiceSyncStatus)
      (h : st = ServiceSyncStatus.skipped ∨ st = ServiceSyncStatus.not_needed
        ∨ st = ServiceSyncStatus.not_applicable) : GoodHist [st]
  | pending_skipped :
      GoodHist [ServiceSyncStatus.pending, ServiceSyncStatus.skipped]
  | sync_failed :
      GoodHist [ServiceSyncStatus.pending, ServiceSyncStatus.acknowledged,
        ServiceSyncStatus.failed]
  | sync_skipped :
      GoodHist [ServiceSyncStatus.pending, ServiceSyncStatus.acknowledged,
        ServiceSyncStatus.skipped]
  | confirmed_tail (w : List ServiceSyncStatus)
      (hw : ∀ x ∈ w, x = ServiceSyncStatus.verified
        ∨ x = ServiceSyncStatus.failed) :
      GoodHist ([ServiceSyncStatus.pending, ServiceSyncStatus.acknowledged,
        ServiceSyncStatus.confirmed] ++ w)

/-! ### Sample data used by witnesses and counterexamples -/

/-- A freshly-requested TV request. -/
def sample_tv_request : MediaRequest :=
  { id := 1, title := "Show", media_type := MediaType.tv,
    state := RequestState.requested }

/-- A request in terminal-success state carrying catalog and request-manager
ids. -/
def sample_available_request : MediaRequest :=
  { id := 2, title := "Show", media_type := MediaType.tv,
    state := RequestState.available, jellyseerr_id := some 42,
    tmdb_id := some 42, tvdb_id := some 42, created_at := 5 }

/-- An older active request for TMDB id 7. -/
def sample_active_old : MediaRequest :=
  { id := 3, title := "Film A", media_type := MediaType.movie,
    state := RequestState.downloading, tmdb_id := some 7, created_at := 10 }

/-- A newer active request for the same TMDB id 7. -/
def sample_active_new : MediaRequest :=
  { id := 4, title := "Film A again", media_type := MediaType.movie,
    state := RequestState.requested, tmdb_id := some 7, created_at := 20 }

/-- An available request whose stored download hash is upper-case. -/
def sample_hash_request : MediaRequest :=
  { id := 5, title := "Film B", media_type := MediaType.movie,
    state := RequestState.available, qbit_hash := some "ABCDEF" }

/-- A TV request with no episode rows yet. -/
def sample_tv_no_episodes : MediaRequest :=
  { id := 6, title := "Show", media_type := MediaType.tv,
    state := RequestState.requested, episodes := [] }

/-- A TV request whose only episode is in `MATCH_FAILED`. -/
def sample_tv_match_failed : MediaRequest :=
  { id := 7, title := "Show", media_type := MediaType.tv,
    state := RequestState.requested,
    episodes := [{ state := EpisodeState.match_failed }] }

/-- A TV request with two available episodes and one in anime matching. -/
def sample_tv_mixed : MediaRequest :=
  { id := 8, title := "Show", media_type := MediaType.tv,
    state := RequestState.downloading,
    episodes := [{ state := EpisodeState.available },
                 { state := EpisodeState.anime_matching },
                 { state := EpisodeState.available }] }

/-- A movie request carrying radarr/jellyfin ids, used for deletion runs. -/
def sample_movie_request : MediaRequest :=
  { id := 9, title := "Film C", media_type := MediaType.movie,
    state := RequestState.available, tmdb_id := some 7, radarr_id := some 5,
    jellyfin_id := some "jf1", is_anime := some false, created_at := 30 }

/-- A listener that always raises. -/
def failing_listener : StateMachine.Listener :=
  fun _ _ _ => Except.error "boom"

/-- An environment in which every client call succeeds. -/
def env_ok : DeletionOrchestrator.Env :=
  { enable_deletion_sync := true,
    sonarr_delete_series := fun _ _ => Except.ok (true, "Series deleted"),
    radarr_delete_movie := fun _ _ => Except.ok (true, "Movie deleted"),
    shoko_remove_missing_files := fun _ => Except.ok (true, "Scan started"),
    jellyfin_delete_item := fun _ => Except.ok (true, "Item deleted"),
    jellyseerr_delete_request := fun _ => Except.ok (true, "Request deleted"),
    jellyseerr_get_media_id_by_tmdb := fun _ _ => Except.ok none,
    jellyseerr_delete_media := fun _ => Except.ok (true, "Media deleted") }

/-- Same as `env_ok` but with the global deletion-sync switch off. -/
def env_disabled : DeletionOrchestrator.Env :=
  { env_ok with enable_deletion_sync := false }

/-- Same as `env_ok` but the radarr delete call raises. -/
def env_radarr_raises : DeletionOrchestrator.Env :=
  { env_ok with
    radarr_delete_movie := fun _ _ => Except.error "connection refused" }

/-- A verifier environment in which every item is gone. -/
def venv_gone : DeletionVerifier.VerifierEnv :=
  { sonarr_get_series := fun _ => Except.ok none,
    radarr_get_movie := fun _ => Except.ok none,
    jellyfin_get_item := fun _ => Except.ok none,
    jellyseerr_get_request := fun _ => Except.ok none }

/-- A verifier environment in which every item still exists. -/
def venv_exists : DeletionVerifier.VerifierEnv :=
  { sonarr_get_series := fun _ => Except.ok (some ()),
    radarr_get_movie := fun _ => Except.ok (some ()),
    jellyfin_get_item := fun _ => Except.ok (some ()),
    jellyseerr_get_request := fun _ => Except.ok (some ()) }

/-- Verification passes that always find the items gone. -/
def venvs_gone : Nat → DeletionVerifier.VerifierEnv := fun _ => venv_gone

/-- Verification passes where the first pass still sees the items and later
passes find them gone. -/
def venvs_flaky : Nat → DeletionVerifier.VerifierEnv :=
  fun n => if n = 0 then venv_exists else venv_gone

/-- Fallback used only to make `extract_log` total. -/
def fallback_log : DeletionLog :=
  { id := 0, title := "", media_type := MediaType.movie }

/-- Project the deletion log out of a deletion-flow result. -/
def extract_log (r : Except String (Option DeletionLog × List MediaRequest)) :
    DeletionLog :=
  match r with
  | Except.ok (some log, _) => log
  | _ => fallback_log

/-- Concrete run: deleting `sample_movie_request` with deletion sync
disabled. -/
def cex_disabled_log : DeletionLog :=
  extract_log
    (DeletionOrchestrator.delete_request [sample_movie_request] 9 true []
      env_disabled 1 50)

/-- Concrete run: deleting `sample_movie_request` with `delete_files = false`
and verification afterwards. -/
def cex_keepfiles_log : DeletionLog :=
  extract_log
    (delete_and_verify [sample_movie_request] 9 false [] env_ok venvs_gone 1 50)

/-- Concrete run: deleting `sample_movie_request` where the first
verification pass still finds the items and the retry finds them gone. -/
def cex_retry_log : DeletionLog :=
  extract_log
    (delete_and_verify [sample_movie_request] 9 true [] env_ok venvs_flaky 1 50)

/-- A deletion log for a movie after successful sync and verification: the
latest status of every service is terminal in the specification's sense, one
of them being `NOT_APPLICABLE`. -/
def cex_completion_log : DeletionLog :=
  { id := 3, title := "Film C", media_type := MediaType.movie,
    sync_events :=
      [{ deletion_log_id := 3, service := "sonarr",
         status := ServiceSyncStatus.not_applicable, timestamp := 1 },
       { deletion_log_id := 3, service := "radarr",
         status := ServiceSyncStatus.verified, timestamp := 2 },
       { deletion_log_id := 3, service := "shoko",
         status := ServiceSyncStatus.not_applicable, timestamp := 3 },
       { deletion_log_id := 3, service := "jellyfin",
         status := ServiceSyncStatus.verified, timestamp := 4 },
       { deletion_log_id := 3, service := "jellyseerr",
         status := ServiceSyncStatus.verified, timestamp := 5 }] }

/-! ## Helper lemmas -/

theorem bool_all_perm {α : Type} (p : α → Bool) {l l2 : List α}
    (h : l.Perm l2) : l.all p = l2.all p := by
  rw [Bool.eq_iff_iff]
  simp only [List.all_eq_true]
  exact ⟨fun H x hx => H x (h.mem_iff.mpr hx),
    fun H x hx => H x (h.mem_iff.mp hx)⟩

theorem bool_any_perm {α : Type} (p : α → Bool) {l l2 : List α}
    (h : l.Perm l2) : l.any p = l2.any p := by
  rw [Bool.eq_iff_iff]
  simp only [List.any_eq_true]
  exact ⟨fun hx => ⟨hx.choose, h.mem_iff.mp hx.choose_spec.1, hx.choose_spec.2⟩,
    fun hx => ⟨hx.choose, h.mem_iff.mpr hx.choose_spec.1, hx.choose_spec.2⟩⟩

theorem aggregate_from_states_perm (fallback : RequestState)
    {l l2 : List EpisodeState} (h : l.Perm l2) :
    aggregate_from_states fallback l = aggregate_from_states fallback l2 := by
  have hf : (fun p : EpisodeState × RequestState =>
      if l.any fun s => decide (s = p.1) then some p.2 else none) =
      fun p => if l2.any fun s => decide (s = p.1) then some p.2 else none :=
    funext fun p => by rw [bool_any_perm _ h]
  unfold aggregate_from_states
  rw [bool_all_perm _ h, bool_any_perm _ h, hf]

theorem calculate_aggregate_state_perm (r : MediaRequest)
    {eps : List Episode} (h : r.episodes.Perm eps) :
    calculate_aggregate_state r =
      calculate_aggregate_state { r with episodes := eps } := by
  have hempty : r.episodes.isEmpty = eps.isEmpty := by
    have hl := h.length_eq
    cases hr : r.episodes <;> cases he : eps <;> simp_all
  unfold calculate_aggregate_state
  simp only
  rw [hempty, aggregate_from_states_perm r.state (h.map Episode.state)]

theorem episodes_all_state (eps : List Episode) (x : EpisodeState) :
    ((eps.map Episode.state).all fun s => decide (s = x)) = true ↔
      ∀ e ∈ eps, e.state = x := by
  simp [List.all_eq_true]

theorem episodes_any_state (eps : List Episode) (x : EpisodeState) :
    ((eps.map Episode.state).any fun s => decide (s = x)) = true ↔
      ∃ e ∈ eps, e.state = x := by
  simp [List.any_eq_true]

theorem aggregate_all_available (fallback : RequestState)
    (states : List EpisodeState)
    (hA : (states.all fun s => decide (s = EpisodeState.available)) = true) :
    aggregate_from_states fallback states = RequestState.available := by
  unfold aggregate_from_states
  rw [hA]
  simp

theorem aggregate_any_failed (fallback : RequestState)
    (states : List EpisodeState)
    (hA : (states.all fun s => decide (s = EpisodeState.available)) = false)
    (hF : (states.any fun s => decide (s = EpisodeState.failed)) = true) :
    aggregate_from_states fallback states = RequestState.failed := by
  unfold aggregate_from_states
  rw [hA, hF]
  simp

theorem aggregate_priority_cases (fallback : RequestState)
    (states : List EpisodeState)
    (hA : (states.all fun s => decide (s = EpisodeState.available)) = false)
    (hF : (states.any fun s => decide (s = EpisodeState.failed)) = false) :
    (EpisodeState.anime_matching ∈ states →
      aggregate_from_states fallback states = RequestState.anime_matching) ∧
    (EpisodeState.anime_matching ∉ states →
      EpisodeState.importing ∈ states →
      aggregate_from_states fallback states = RequestState.importing) ∧
    (EpisodeState.anime_matching ∉ states →
      EpisodeState.importing ∉ states →
      EpisodeState.downloaded ∈ states →
      aggregate_from_states fallback states = RequestState.downloaded) ∧
    (EpisodeState.anime_matching ∉ states →
      EpisodeState.importing ∉ states →
      EpisodeState.downloaded ∉ states →
      EpisodeState.downloading ∈ states →
      aggregate_from_states fallback states = RequestState.downloading) ∧
    (EpisodeState.anime_matching ∉ states →
      EpisodeState.importing ∉ states →
      EpisodeState.downloaded ∉ states →
      EpisodeState.downloading ∉ states →
      EpisodeState.grabbing ∈ states →
      aggregate_from_states fallback states = RequestState.grabbing) ∧
    (EpisodeState.anime_matching ∉ states →
      EpisodeState.importing ∉ states →
      EpisodeState.downloaded ∉ states →
      EpisodeState.downloading ∉ states →
      EpisodeState.grabbing ∉ states →
      aggregate_from_states fallback states = fallback) := by
  unfold aggregate_from_states
  rw [hA, hF]
  simp only [Bool.false_eq_true, if_false]
  refine ⟨fun h1 => ?_, fun h1 h2 => ?_, fun h1 h2 h3 => ?_,
    fun h1 h2 h3 h4 => ?_, fun h1 h2 h3 h4 h5 => ?_,
    fun h1 h2 h3 h4 h5 => ?_⟩ <;>
    simp [state_priority, List.findSome?_cons, *]

theorem not_all_available_bool (eps : List Episode)
    (h : ¬ ∀ e ∈ eps, e.state = EpisodeState.available) :
    ((eps.map Episode.state).all fun s =>
      decide (s = EpisodeState.available)) = false := by
  cases hb : (eps.map Episode.state).all fun s =>
      decide (s = EpisodeState.available)
  · rfl
  · exact absurd ((episodes_all_state _ _).mp hb) h

theorem not_any_state_bool (eps : List Episode) (x : EpisodeState)
    (h : ¬ ∃ e ∈ eps, e.state = x) :
    ((eps.map Episode.state).any fun s => decide (s = x)) = false := by
  cases hb : (eps.map Episode.state).any fun s => decide (s = x)
  · rfl
  · exact absurd ((episodes_any_state _ _).mp hb) h

theorem mem_states_of_exists (eps : List Episode) (x : EpisodeState)
    (h : ∃ e ∈ eps, e.state = x) : x ∈ eps.map Episode.state := by
  obtain ⟨e, he, hx⟩ := h
  exact List.mem_map.mpr ⟨e, he, hx⟩

theorem not_mem_states (eps : List Episode) (x : EpisodeState)
    (h : ¬ ∃ e ∈ eps, e.state = x) : x ∉ eps.map Episode.state := by
  intro hc
  obtain ⟨e, he, hx⟩ := List.mem_map.mp hc
  exact h ⟨e, he, hx⟩

/-! ## Claim theorems: aggregate state (C3, C10) -/

/-- C3 counterexample: taken literally, the claim fails on the code. With an
empty episode list every episode is (vacuously) `AVAILABLE`, yet the function
returns the stored state (`REQUESTED`), not `AVAILABLE`; and with every
episode in `MATCH_FAILED` the function returns the stored state, which is
none of the outcomes the claim's three rules allow. -/
theorem aggregate_state_claim_counterexample :
    (∀ e ∈ sample_tv_no_episodes.episodes,
      e.state = EpisodeState.available) ∧
    sample_tv_no_episodes.media_type = MediaType.tv ∧
    calculate_aggregate_state sample_tv_no_episodes = RequestState.requested ∧
    RequestState.requested ≠ RequestState.available ∧
    sample_tv_match_failed.media_type = MediaType.tv ∧
    calculate_aggregate_state sample_tv_match_failed = RequestState.requested ∧
    RequestState.requested ∉
      [RequestState.available, RequestState.failed,
       RequestState.anime_matching, RequestState.importing,
       RequestState.downloaded, RequestState.downloading,
       RequestState.grabbing] := by
  decide

/-- C3 (amended): for a TV request with a *nonempty* episode list, the
aggregate-state function returns `AVAILABLE` when every episode is
`AVAILABLE`; otherwise `FAILED` when some episode is `FAILED`; otherwise the
highest-priority episode state present under the fixed order
`ANIME_MATCHING > IMPORTING > DOWNLOADED > DOWNLOADING > GRABBING`, when one
of those five states is present at all; and the result is invariant under any
permutation of the episode list. -/
theorem calculate_aggregate_state_spec (r : MediaRequest) :
    (∀ eps : List Episode, r.episodes.Perm eps →
      calculate_aggregate_state r =
        calculate_aggregate_state { r with episodes := eps }) ∧
    (r.media_type = MediaType.tv → r.episodes ≠ [] →
      ((∀ e ∈ r.episodes, e.state = EpisodeState.available) →
        calculate_aggregate_state r = RequestState.available) ∧
      ((¬ ∀ e ∈ r.episodes, e.state = EpisodeState.available) →
        (∃ e ∈ r.episodes, e.state = EpisodeState.failed) →
        calculate_aggregate_state r = RequestState.failed) ∧
      ((¬ ∀ e ∈ r.episodes, e.state = EpisodeState.available) →
        (¬ ∃ e ∈ r.episodes, e.state = EpisodeState.failed) →
        ((∃ e ∈ r.episodes, e.state = EpisodeState.anime_matching) →
          calculate_aggregate_state r = RequestState.anime_matching) ∧
        ((¬ ∃ e ∈ r.episodes, e.state = EpisodeState.anime_matching) →
          (∃ e ∈ r.episodes, e.state = EpisodeState.importing) →
          calculate_aggregate_state r = RequestState.importing) ∧
        ((¬ ∃ e ∈ r.episodes, e.state = EpisodeState.anime_matching) →
          (¬ ∃ e ∈ r.episodes, e.state = EpisodeState.importing) →
          (∃ e ∈ r.episodes, e.state = EpisodeState.downloaded) →
          calculate_aggregate_state r = RequestState.downloaded) ∧
        ((¬ ∃ e ∈ r.episodes, e.state = EpisodeState.anime_matching) →
          (¬ ∃ e ∈ r.episodes, e.state = EpisodeState.importing) →
          (¬ ∃ e ∈ r.episodes, e.state = EpisodeState.downloaded) →
          (∃ e ∈ r.episodes, e.state = EpisodeState.downloading) →
          calculate_aggregate_state r = RequestState.downloading) ∧
        ((¬ ∃ e ∈ r.episodes, e.state = EpisodeState.anime_matching) →
          (¬ ∃ e ∈ r.episodes, e.state = EpisodeState.importing) →
          (¬ ∃ e ∈ r.episodes, e.state = EpisodeState.downloaded) →
          (¬ ∃ e ∈ r.episodes, e.state = EpisodeState.downloading) →
          (∃ e ∈ r.episodes, e.state = EpisodeState.grabbing) →
          calculate_aggregate_state r = RequestState.grabbing))) := by
  constructor
  · intro eps h
    exact calculate_aggregate_state_perm r h
  · intro hm hne
    have he : r.episodes.isEmpty = false := List.isEmpty_eq_false.mpr hne
    have hred : calculate_aggregate_state r =
        aggregate_from_states r.state (r.episodes.map Episode.state) := by
      simp [calculate_aggregate_state, hm, he]
    refine ⟨?_, ?_, ?_⟩
    · intro hall
      rw [hred]
      exact aggregate_all_available _ _ ((episodes_all_state _ _).mpr hall)
    · intro hnall hfail
      rw [hred]
      exact aggregate_any_failed _ _ (not_all_available_bool _ hnall)
        ((episodes_any_state _ _).mpr hfail)
    · intro hnall hnfail
      have hc := aggregate_priority_cases r.state (r.episodes.map Episode.state)
        (not_all_available_bool _ hnall) (not_any_state_bool _ _ hnfail)
      refine ⟨fun h1 => ?_, fun h1 h2 => ?_, fun h1 h2 h3 => ?_,
        fun h1 h2 h3 h4 => ?_, fun h1 h2 h3 h4 h5 => ?_⟩
      · rw [hred]
        exact hc.1 (mem_states_of_exists _ _ h1)
      · rw [hred]
        exact hc.2.1 (not_mem_states _ _ h1) (mem_states_of_exists _ _ h2)
      · rw [hred]
        exact hc.2.2.1 (not_mem_states _ _ h1) (not_mem_states _ _ h2)
          (mem_states_of_exists _ _ h3)
      · rw [hred]
        exact hc.2.2.2.1 (not_mem_states _ _ h1) (not_mem_states _ _ h2)
          (not_mem_states _ _ h3) (mem_states_of_exists _ _ h4)
      · rw [hred]
        exact hc.2.2.2.2.1 (not_mem_states _ _ h1) (not_mem_states _ _ h2)
          (not_mem_states _ _ h3) (not_mem_states _ _ h4)
          (mem_states_of_exists _ _ h5)

/-- Witness for the amended C3: two of three episodes available and one in
anime matching gives `ANIME_MATCHING`, and reordering the episodes does not
change the result. -/
theorem calculate_aggregate_state_spec_witness :
    calculate_aggregate_state sample_tv_mixed = RequestState.anime_matching ∧
    calculate_aggregate_state sample_tv_mixed =
      calculate_aggregate_state
        { sample_tv_mixed with
          episodes := [{ state := EpisodeState.anime_matching },
                       { state := EpisodeState.available },
                       { state := EpisodeState.available }] } :=
  ⟨(((calculate_aggregate_state_spec sample_tv_mixed).2 rfl
        (by decide)).2.2 (by decide) (by decide)).1 (by decide),
   (calculate_aggregate_state_spec sample_tv_mixed).1 _ (by decide)⟩

/-- C10 (confirmed): the aggregate-state function leaves the stored state
unchanged for movies, and for TV requests whose episodes are not all
available, contain no failed episode and none of the five priority states. -/
theorem aggregate_state_fallback (r : MediaRequest) :
    (r.media_type = MediaType.movie → calculate_aggregate_state r = r.state) ∧
    (r.media_type = MediaType.tv →
      (¬ ∀ e ∈ r.episodes, e.state = EpisodeState.available) →
      (¬ ∃ e ∈ r.episodes, e.state = EpisodeState.failed) →
      (¬ ∃ e ∈ r.episodes, e.state = EpisodeState.anime_matching) →
      (¬ ∃ e ∈ r.episodes, e.state = EpisodeState.importing) →
      (¬ ∃ e ∈ r.episodes, e.state = EpisodeState.downloaded) →
      (¬ ∃ e ∈ r.episodes, e.state = EpisodeState.downloading) →
      (¬ ∃ e ∈ r.episodes, e.state = EpisodeState.grabbing) →
      calculate_aggregate_state r = r.state) := by
  constructor
  · intro hm
    simp [calculate_aggregate_state, hm]
  · intro hm hnall hnf h1 h2 h3 h4 h5
    have hne : r.episodes ≠ [] := by
      intro hcontra
      exact hnall (by simp [hcontra])
    have he : r.episodes.isEmpty = false := List.isEmpty_eq_false.mpr hne
    have hred : calculate_aggregate_state r =
        aggregate_from_states r.state (r.episodes.map Episode.state) := by
      simp [calculate_aggregate_state, hm, he]
    rw [hred]
    exact (aggregate_priority_cases r.state _ (not_all_available_bool _ hnall)
      (not_any_state_bool _ _ hnf)).2.2.2.2.2 (not_mem_states _ _ h1)
      (not_mem_states _ _ h2) (not_mem_states _ _ h3) (not_mem_states _ _ h4)
      (not_mem_states _ _ h5)

/-- Witness for C10 at a movie and at an all-`MATCH_FAILED` TV request. -/
theorem aggregate_state_fallback_witness :
    calculate_aggregate_state sample_movie_request = RequestState.available ∧
    calculate_aggregate_state sample_tv_match_failed =
      RequestState.requested :=
  ⟨(aggregate_state_fallback sample_movie_request).1 rfl,
   (aggregate_state_fallback sample_tv_match_failed).2 rfl (by decide)
     (by decide) (by decide) (by decide) (by decide) (by decide) (by decide)⟩

/-! ## Claim theorems: state machine (C4, C8) -/

/-- C4 (confirmed): a transition whose target is not in the successor set of
the current state returns `False` and changes nothing: the request (state and
both timestamps included) and the timeline are returned untouched and no
listener runs. -/
theorem transition_rejects_invalid (request : MediaRequest)
    (new_state : RequestState) (events : List TimelineEvent)
    (service event_type : String) (details raw_data : Option String)
    (listeners : List StateMachine.Listener) (now : Nat)
    (h : new_state ∉ VALID_TRANSITIONS request.state) :
    StateMachine.transition request new_state events service event_type
        details raw_data listeners now =
      { ok := false, request := request, events := events,
        listener_log := [] } := by
  unfold StateMachine.transition
  simp [StateMachine.can_transition, h]

/-- Witness for C4: `REQUESTED → AVAILABLE` is rejected and nothing changes,
even with a raising listener registered. -/
theorem transition_rejects_invalid_witness :
    RequestState.available ∉ VALID_TRANSITIONS sample_tv_request.state ∧
    StateMachine.transition sample_tv_request RequestState.available []
        "jellyseerr" "MediaAvailable" none none [failing_listener] 5 =
      { ok := false, request := sample_tv_request, events := [],
        listener_log := [] } :=
  ⟨by decide,
   transition_rejects_invalid sample_tv_request RequestState.available []
     "jellyseerr" "MediaAvailable" none none [failing_listener] 5 (by decide)⟩

/-- C8 (confirmed): a transition whose target is in the successor set sets
the new state, refreshes both timestamps, appends exactly one timeline event
recording the new state, and returns `True`; every raising listener's error
is caught and logged, and the result does not depend on listener outcomes. -/
theorem transition_applies_valid (request : MediaRequest)
    (new_state : RequestState) (events : List TimelineEvent)
    (service event_type : String) (details raw_data : Option String)
    (listeners : List StateMachine.Listener) (now : Nat)
    (h : new_state ∈ VALID_TRANSITIONS request.state) :
    StateMachine.transition request new_state events service event_type
        details raw_data listeners now =
      { ok := true,
        request := StateMachine.transitioned_request request new_state now,
        events := events ++
          [StateMachine.transition_event
            (StateMachine.transitioned_request request new_state now)
            new_state service event_type details raw_data now],
        listener_log := StateMachine.listener_error_log listeners
          (StateMachine.transitioned_request request new_state now)
          request.state new_state } ∧
    (∀ l ∈ listeners, ∀ msg,
      l (StateMachine.transitioned_request request new_state now)
          request.state new_state = Except.error msg →
      ("State change listener error: " ++ msg) ∈
        (StateMachine.transition request new_state events service event_type
          details raw_data listeners now).listener_log) := by
  have hc : StateMachine.can_transition request.state new_state = true := by
    simp [StateMachine.can_transition, h]
  have heq : StateMachine.transition request new_state events service
      event_type details raw_data listeners now =
      { ok := true,
        request := StateMachine.transitioned_request request new_state now,
        events := events ++
          [StateMachine.transition_event
            (StateMachine.transitioned_request request new_state now)
            new_state service event_type details raw_data now],
        listener_log := StateMachine.listener_error_log listeners
          (StateMachine.transitioned_request request new_state now)
          request.state new_state } := by
    simp [StateMachine.transition, hc]
  refine ⟨heq, ?_⟩
  intro l hl msg hmsg
  rw [heq]
  exact List.mem_filterMap.mpr ⟨l, hl, by rw [hmsg]⟩

/-- Witness for C8: `REQUESTED → APPROVED` with a raising listener still
applies the state change, appends the event, returns `True`, and logs the
listener error. -/
theorem transition_applies_valid_witness :
    StateMachine.transition sample_tv_request RequestState.approved []
        "jellyseerr" "RequestApproved" none none [failing_listener] 7 =
      { ok := true,
        request :=
          { sample_tv_request with
            state := RequestState.approved, state_changed_at := 7,
            updated_at := 7 },
        events :=
          [{ request_id := 1, service := "jellyseerr",
             event_type := "RequestApproved", state := RequestState.approved,
             details := none, raw_data := none, timestamp := 7 }],
        listener_log := ["State change listener error: boom"] } ∧
    "State change listener error: boom" ∈
      (StateMachine.transition sample_tv_request RequestState.approved []
        "jellyseerr" "RequestApproved" none none [failing_listener]
        7).listener_log := by
  have h := transition_applies_valid sample_tv_request RequestState.approved []
    "jellyseerr" "RequestApproved" none none [failing_listener] 7 (by decide)
  refine ⟨?_, h.2 failing_listener (List.mem_singleton.mpr rfl) "boom" rfl⟩
  rw [h.1]
  rfl

/-! ## Claim theorems: correlator (C1, C9) -/

theorem scalar_ok_some_mem {α : Type} {l : List α} {r : α}
    (h : scalar_one_or_none l = Except.ok (some r)) : r ∈ l := by
  cases l with
  | nil => simp [scalar_one_or_none] at h
  | cons a tl =>
    cases tl with
    | nil =>
      simp [scalar_one_or_none] at h
      rw [h]
      exact List.mem_singleton.mpr rfl
    | cons b tl2 => simp [scalar_one_or_none] at h

theorem insert_desc_perm {α : Type} (le : α → α → Bool) (x : α) :
    ∀ l : List α, (EventCorrelator.insert_desc le x l).Perm (x :: l)
  | [] => List.Perm.refl _
  | y :: ys => by
    unfold EventCorrelator.insert_desc
    split
    · exact List.Perm.refl _
    · exact ((insert_desc_perm le x ys).cons y).trans (List.Perm.swap x y ys)

theorem insertion_sort_perm {α : Type} (le : α → α → Bool) :
    ∀ l : List α, (EventCorrelator.insertion_sort le l).Perm l
  | [] => List.Perm.refl _
  | x :: xs =>
    (insert_desc_perm le x (EventCorrelator.insertion_sort le xs)).trans
      ((insertion_sort_perm le xs).cons x)

theorem sort_by_created_desc_perm (rows : List MediaRequest) :
    (EventCorrelator.sort_by_created_desc rows).Perm rows :=
  insertion_sort_perm _ rows

/-- C1 counterexample: `find_by_jellyseerr_id` *does* match a request in the
terminal-success state `AVAILABLE` (its filter is `ACTIVE_STATES +
[AVAILABLE]`), and when several active requests match a TMDB id the lookup
raises `MultipleResultsFound` instead of returning the newest. -/
theorem correlator_claim_counterexample :
    sample_available_request.state = RequestState.available ∧
    sample_available_request.state ∉ ACTIVE_STATES ∧
    EventCorrelator.find_by_jellyseerr_id [sample_available_request] 42 =
      Except.ok (some sample_available_request) ∧
    sample_active_old.state ∈ ACTIVE_STATES ∧
    sample_active_new.state ∈ ACTIVE_STATES ∧
    sample_active_old.tmdb_id = some 7 ∧
    sample_active_new.tmdb_id = some 7 ∧
    sample_active_old.created_at < sample_active_new.created_at ∧
    EventCorrelator.find_by_tmdb [sample_active_old, sample_active_new] 7 =
      Except.error "MultipleResultsFound" := by
  refine ⟨rfl, by decide, rfl, by decide, by decide, rfl, rfl, by decide, rfl⟩

/-- C1 (amended): the TMDB and TVDB lookups only ever return requests in
`ACTIVE_STATES` (so a request in `AVAILABLE` is never returned — its catalog
id resolves to `None`), and raise `MultipleResultsFound` when several rows
match instead of returning the newest; the Jellyseerr-id lookup matches
active requests *and* `AVAILABLE` ones. -/
theorem correlator_lookup_scope (db : List MediaRequest) (idv : Nat) :
    (∀ r, EventCorrelator.find_by_tmdb db idv = Except.ok (some r) →
      r.tmdb_id = some idv ∧ r.state ∈ ACTIVE_STATES) ∧
    (∀ r, EventCorrelator.find_by_tvdb db idv = Except.ok (some r) →
      r.tvdb_id = some idv ∧ r.state ∈ ACTIVE_STATES) ∧
    (∀ r, EventCorrelator.find_by_jellyseerr_id db idv =
        Except.ok (some r) →
      r.jellyseerr_id = some idv ∧
        (r.state ∈ ACTIVE_STATES ∨ r.state = RequestState.available)) ∧
    (∀ r : MediaRequest, r.state = RequestState.available →
      EventCorrelator.find_by_tmdb [r] idv = Except.ok none ∧
      EventCorrelator.find_by_tvdb [r] idv = Except.ok none) ∧
    (2 ≤ (EventCorrelator.tmdb_matches db idv).length →
      EventCorrelator.find_by_tmdb db idv =
        Except.error "MultipleResultsFound") := by
  refine ⟨?_, ?_, ?_, ?_, ?_⟩
  · intro r h
    have hmem : r ∈ EventCorrelator.tmdb_matches db idv :=
      ((sort_by_created_desc_perm _).mem_iff).mp (scalar_ok_some_mem h)
    exact of_decide_eq_true (List.mem_filter.mp hmem).2
  · intro r h
    have hmem : r ∈ EventCorrelator.tvdb_matches db idv :=
      ((sort_by_created_desc_perm _).mem_iff).mp (scalar_ok_some_mem h)
    exact of_decide_eq_true (List.mem_filter.mp hmem).2
  · intro r h
    have hmem : r ∈ EventCorrelator.jellyseerr_matches db idv :=
      scalar_ok_some_mem h
    have hp := of_decide_eq_true (List.mem_filter.mp hmem).2
    refine ⟨hp.1, ?_⟩
    rcases List.mem_append.mp hp.2 with hx | hx
    · exact Or.inl hx
    · exact Or.inr (List.mem_singleton.mp hx)
  · intro r hr
    have hp1 : (decide (r.tmdb_id = some idv ∧ r.state ∈ ACTIVE_STATES)) =
        false := by
      simp [hr, ACTIVE_STATES]
    have hp2 : (decide (r.tvdb_id = some idv ∧ r.state ∈ ACTIVE_STATES)) =
        false := by
      simp [hr, ACTIVE_STATES]
    constructor
    · simp only [EventCorrelator.find_by_tmdb, EventCorrelator.tmdb_matches,
        EventCorrelator.sort_by_created_desc, List.filter_cons, hp1,
        List.filter_nil, Bool.false_eq_true, if_false]
      rfl
    · simp only [EventCorrelator.find_by_tvdb, EventCorrelator.tvdb_matches,
        EventCorrelator.sort_by_created_desc, List.filter_cons, hp2,
        List.filter_nil, Bool.false_eq_true, if_false]
      rfl
  · intro hlen
    have hperm : (EventCorrelator.sort_by_created_desc
        (EventCorrelator.tmdb_matches db idv)).length =
        (EventCorrelator.tmdb_matches db idv).length :=
      (sort_by_created_desc_perm _).length_eq
    unfold EventCorrelator.find_by_tmdb
    rcases hs : EventCorrelator.sort_by_created_desc
        (EventCorrelator.tmdb_matches db idv) with _ | ⟨a, _ | ⟨b, tl⟩⟩
    · rw [hs] at hperm
      simp at hperm
      omega
    · rw [hs] at hperm
      simp at hperm
      omega
    · rfl

/-- Witness for the amended C1: an `AVAILABLE` request's catalog ids resolve
to `None`, and a double active match raises. -/
theorem correlator_lookup_scope_witness :
    EventCorrelator.find_by_tmdb [sample_available_request] 42 =
      Except.ok none ∧
    EventCorrelator.find_by_tvdb [sample_available_request] 42 =
      Except.ok none ∧
    EventCorrelator.find_by_tmdb [sample_active_old, sample_active_new] 7 =
      Except.error "MultipleResultsFound" :=
  ⟨((correlator_lookup_scope [sample_available_request] 42).2.2.2.1
      sample_available_request rfl).1,
   ((correlator_lookup_scope [sample_available_request] 42).2.2.2.1
      sample_available_request rfl).2,
   (correlator_lookup_scope [sample_active_old, sample_active_new] 7).2.2.2.2
     (by decide)⟩

/-- C9 (confirmed): the download-hash lookup is case-insensitive and ignores
lifecycle state entirely: any request storing hash `"ABCDEF"` — whatever its
state — is found by `"abcdef"`, both directly and through `find_by_any`. -/
theorem find_by_hash_spec (r : MediaRequest)
    (h : r.qbit_hash = some "ABCDEF") :
    EventCorrelator.find_by_hash [r] "abcdef" = Except.ok (some r) ∧
    EventCorrelator.find_by_any [r] none none none (some "abcdef") =
      Except.ok (some r) := by
  have hp : (fun rr : MediaRequest =>
      decide (rr.qbit_hash.map EventCorrelator.ascii_lower =
        some (EventCorrelator.ascii_lower "abcdef"))) r = true := by
    simp only [h]
    decide
  have hfilter : List.filter
      (fun rr : MediaRequest =>
        decide (rr.qbit_hash.map EventCorrelator.ascii_lower =
          some (EventCorrelator.ascii_lower "abcdef"))) [r] = [r] := by
    rw [List.filter_cons, if_pos hp, List.filter_nil]
  have h1 : EventCorrelator.find_by_hash [r] "abcdef" =
      Except.ok (some r) := by
    unfold EventCorrelator.find_by_hash
    rw [if_neg (by decide), hfilter]
    rfl
  refine ⟨h1, ?_⟩
  unfold EventCorrelator.find_by_any
  rw [show (some "abcdef").getD "" = "abcdef" from rfl,
    show truthy_str (some "abcdef") = true from rfl, h1]
  rfl

/-- Witness for C9 at a concrete `AVAILABLE` request. -/
theorem find_by_hash_spec_witness :
    EventCorrelator.find_by_hash [sample_hash_request] "abcdef" =
      Except.ok (some sample_hash_request) ∧
    EventCorrelator.find_by_any [sample_hash_request] none none none
      (some "abcdef") = Except.ok (some sample_hash_request) :=
  find_by_hash_spec sample_hash_request rfl

/-! ## Claim theorems: deletion verifier completion (C2) -/

/-- C2 (code bug): the verifier's completion check omits `NOT_APPLICABLE`
from its terminal set, so it never stamps `completed_at` on a log containing
a `NOT_APPLICABLE` row — although every phase-1 event set contains one
(sonarr for movies, radarr for TV), as the last conjunct proves. At
`cex_completion_log` every service's latest status is terminal in the
specification's sense, yet `_check_completion` leaves `completed_at`
unset. -/
theorem check_completion_not_applicable_bug :
    ((service_statuses cex_completion_log.sync_events).all fun p =>
      decide (p.2 ∈ claimed_terminal_states)) = true ∧
    cex_completion_log.completed_at = none ∧
    (DeletionVerifier._check_completion cex_completion_log 100).completed_at =
      none ∧
    (∀ (request : MediaRequest) (skips : List String) (log_id now : Nat),
      ∃ e ∈ DeletionOrchestrator.phase1_events log_id
          (DeletionOrchestrator._determine_services request skips) now,
        e.status = ServiceSyncStatus.not_applicable) := by
  refine ⟨by decide, rfl, by decide, ?_⟩
  intro request skips log_id now
  simp only [DeletionOrchestrator.phase1_events,
    DeletionOrchestrator._determine_services, List.map_cons, List.map_nil]
  rcases hmt : request.media_type with _ | _
  · exact ⟨_, List.mem_cons_self _ _, by
      simp [DeletionOrchestrator.phase1_status, hmt]⟩
  · exact ⟨_, List.mem_cons_of_mem _ (List.mem_cons_self _ _), by
      simp [DeletionOrchestrator.phase1_status, hmt]⟩

/-! ## Claim theorems: deletion phase 1 (C5) -/

theorem phase1_status_opt {α : Type} [DecidableEq α] (P Q : Prop)
    [Decidable P] [Decidable Q] (o : Option α) :
    DeletionOrchestrator.phase1_status
        ⟨decide P, o.isSome, decide Q⟩ =
      (if ¬ P then ServiceSyncStatus.not_applicable
       else if Q then ServiceSyncStatus.skipped
       else if o = none then ServiceSyncStatus.not_needed
       else ServiceSyncStatus.pending) := by
  by_cases hP : P <;> by_cases hQ : Q <;> cases o <;>
    simp [DeletionOrchestrator.phase1_status, hP, hQ]

theorem phase1_status_bool (b : Bool) (Q : Prop) [Decidable Q] :
    DeletionOrchestrator.phase1_status ⟨b, true, decide Q⟩ =
      (if b = false then ServiceSyncStatus.not_applicable
       else if Q then ServiceSyncStatus.skipped
       else ServiceSyncStatus.pending) := by
  cases b <;> by_cases hQ : Q <;>
    simp [DeletionOrchestrator.phase1_status, hQ]

theorem phase1_status_always {α : Type} [DecidableEq α] (Q : Prop)
    [Decidable Q] (o : Option α) :
    DeletionOrchestrator.phase1_status ⟨true, o.isSome, decide Q⟩ =
      (if Q then ServiceSyncStatus.skipped
       else if o = none then ServiceSyncStatus.not_needed
       else ServiceSyncStatus.pending) := by
  by_cases hQ : Q <;> cases o <;>
    simp [DeletionOrchestrator.phase1_status, hQ]

theorem phase1_status_mem (info : ServiceInfo) :
    DeletionOrchestrator.phase1_status info ∈
      [ServiceSyncStatus.pending, ServiceSyncStatus.skipped,
       ServiceSyncStatus.not_needed, ServiceSyncStatus.not_applicable] := by
  rcases info with ⟨a, h, s⟩
  cases a <;> cases h <;> cases s <;> decide

/-- C5 (confirmed): phase 1 creates exactly one sync event per service of the
fixed set, in order sonarr, radarr, shoko, jellyfin, jellyseerr; every status
is drawn from `{PENDING, SKIPPED, NOT_NEEDED, NOT_APPLICABLE}`; and each
service's status follows the classification order: `NOT_APPLICABLE` if the
service is not applicable to the media kind (sonarr ↔ TV, radarr ↔ movie,
shoko ↔ truthy `is_anime`, jellyfin/jellyseerr always applicable), else
`SKIPPED` if the caller listed it, else `NOT_NEEDED` if the entity carries no
id for it (shoko never needs one), else `PENDING`. -/
theorem delete_phase1_spec (request : MediaRequest)
    (skip_services : List String) (log_id now : Nat) :
    (DeletionOrchestrator.phase1_events log_id
        (DeletionOrchestrator._determine_services request skip_services)
        now).map DeletionSyncEvent.service = known_services ∧
    (∀ e ∈ DeletionOrchestrator.phase1_events log_id
        (DeletionOrchestrator._determine_services request skip_services) now,
      e.status ∈ [ServiceSyncStatus.pending, ServiceSyncStatus.skipped,
        ServiceSyncStatus.not_needed, ServiceSyncStatus.not_applicable]) ∧
    (DeletionOrchestrator.phase1_events log_id
        (DeletionOrchestrator._determine_services request skip_services)
        now).map DeletionSyncEvent.status =
      [(if ¬ request.media_type = MediaType.tv then
          ServiceSyncStatus.not_applicable
        else if "sonarr" ∈ skip_services then ServiceSyncStatus.skipped
        else if request.sonarr_id = none then ServiceSyncStatus.not_needed
        else ServiceSyncStatus.pending),
       (if ¬ request.media_type = MediaType.movie then
          ServiceSyncStatus.not_applicable
        else if "radarr" ∈ skip_services then ServiceSyncStatus.skipped
        else if request.radarr_id = none then ServiceSyncStatus.not_needed
        else ServiceSyncStatus.pending),
       (if truthy_bool request.is_anime = false then
          ServiceSyncStatus.not_applicable
        else if "shoko" ∈ skip_services then ServiceSyncStatus.skipped
        else ServiceSyncStatus.pending),
       (if "jellyfin" ∈ skip_services then ServiceSyncStatus.skipped
        else if request.jellyfin_id = none then ServiceSyncStatus.not_needed
        else ServiceSyncStatus.pending),
       (if "jellyseerr" ∈ skip_services then ServiceSyncStatus.skipped
        else if request.jellyseerr_id = none then ServiceSyncStatus.not_needed
        else ServiceSyncStatus.pending)] := by
  refine ⟨rfl, ?_, ?_⟩
  · intro e he
    simp only [DeletionOrchestrator.phase1_events, List.mem_map] at he
    obtain ⟨p, hp, rfl⟩ := he
    exact phase1_status_mem p.2
  · simp only [DeletionOrchestrator.phase1_events,
      DeletionOrchestrator._determine_services, List.map_cons, List.map_nil]
    rw [phase1_status_opt, phase1_status_opt, phase1_status_bool,
      phase1_status_always, phase1_status_always]

/-- Witness for C5: deleting a non-anime movie with jellyseerr skipped gives
`[NOT_APPLICABLE, PENDING, NOT_APPLICABLE, PENDING, SKIPPED]` for
`[sonarr, radarr, shoko, jellyfin, jellyseerr]`. -/
theorem delete_phase1_spec_witness :
    (DeletionOrchestrator.phase1_events 1
        (DeletionOrchestrator._determine_services sample_movie_request
          ["jellyseerr"]) 2).map DeletionSyncEvent.service = known_services ∧
    (DeletionOrchestrator.phase1_events 1
        (DeletionOrchestrator._determine_services sample_movie_request
          ["jellyseerr"]) 2).map DeletionSyncEvent.status =
      [ServiceSyncStatus.not_applicable, ServiceSyncStatus.pending,
       ServiceSyncStatus.not_applicable, ServiceSyncStatus.pending,
       ServiceSyncStatus.skipped] :=
  ⟨(delete_phase1_spec sample_movie_request ["jellyseerr"] 1 2).1,
   ((delete_phase1_spec sample_movie_request ["jellyseerr"] 1 2).2.2).trans
     (by decide)⟩

/-! ## Claim theorems: delete operation surface (C6) -/

theorem filter_id_unique (request_id : Nat) :
    ∀ (db : List MediaRequest), (db.map MediaRequest.id).Nodup →
    ∀ r ∈ db, r.id = request_id →
    db.filter (fun x => decide (x.id = request_id)) = [r] := by
  intro db
  induction db with
  | nil => intro _ r hr; cases hr
  | cons a tl ih =>
    intro hids r hr hid
    rw [List.map_cons, List.nodup_cons] at hids
    rcases List.mem_cons.mp hr with rfl | hmem
    · rw [List.filter_cons, if_pos (by simp [hid])]
      have htl : tl.filter (fun x => decide (x.id = request_id)) = [] := by
        rw [List.filter_eq_nil_iff]
        intro x hx
        simp only [decide_eq_true_eq]
        intro hxeq
        exact hids.1 (List.mem_map.mpr ⟨x, hx, by rw [hxeq, hid]⟩)
      rw [htl]
    · have hane : ¬ (a.id = request_id) := by
        intro haeq
        exact hids.1 (List.mem_map.mpr ⟨r, hmem, by rw [hid, haeq]⟩)
      rw [List.filter_cons, if_neg (by simpa using hane)]
      exact ih hids.2 r hmem hid

/-- C6 (confirmed): `delete_request` returns the not-found signal (`None`)
exactly when no request carries the given id (assuming the primary-key
invariant that ids are unique); in every other case it returns a
`DeletionLog` (with the request removed from the store) — it never raises,
whatever the service clients do. A per-service sync whose attempt fails is
captured as an appended `FAILED` event carrying the error detail, and a
raised client exception becomes a failed attempt with the `Exception: …`
message. -/
theorem delete_request_spec (db : List MediaRequest) (request_id : Nat)
    (delete_files : Bool) (skip_services : List String)
    (env : DeletionOrchestrator.Env) (log_id now : Nat)
    (hids : (db.map MediaRequest.id).Nodup) :
    ((∀ r ∈ db, r.id ≠ request_id) →
      DeletionOrchestrator.delete_request db request_id delete_files
        skip_services env log_id now = Except.ok (none, db)) ∧
    (∀ r ∈ db, r.id = request_id →
      DeletionOrchestrator.delete_request db request_id delete_files
          skip_services env log_id now =
        Except.ok
          (some (DeletionOrchestrator.orchestrated_log r delete_files
            skip_services env log_id now),
           db.filter fun x => decide (¬ x.id = request_id))) ∧
    (∀ (log : DeletionLog) (service : String) (df : Bool)
        (env2 : DeletionOrchestrator.Env) (t : Nat) (m : String),
      DeletionOrchestrator.sync_attempt log service df env2 =
        DeletionOrchestrator.SyncAttempt.result false m →
      (DeletionOrchestrator._sync_service log service df env2 t).sync_events =
        log.sync_events ++
          [{ deletion_log_id := log.id, service := service,
             status := ServiceSyncStatus.acknowledged,
             details := some ("Sending DELETE request to " ++ service),
             timestamp := t },
           { deletion_log_id := log.id, service := service,
             status := ServiceSyncStatus.failed, error_message := some m,
             timestamp := t }]) ∧
    (∀ (log : DeletionLog) (service : String) (df : Bool)
        (env2 : DeletionOrchestrator.Env) (e : String),
      DeletionOrchestrator.sync_body log service df env2 = Except.error e →
      DeletionOrchestrator.sync_attempt log service df env2 =
        DeletionOrchestrator.SyncAttempt.result false ("Exception: " ++ e)) := by
  refine ⟨?_, ?_, ?_, ?_⟩
  · intro hnone
    have hfilter : db.filter (fun x => decide (x.id = request_id)) = [] := by
      rw [List.filter_eq_nil_iff]
      intro x hx
      simpa using hnone x hx
    unfold DeletionOrchestrator.delete_request
    rw [hfilter]
    rfl
  · intro r hr hid
    have hfilter := filter_id_unique request_id db hids r hr hid
    unfold DeletionOrchestrator.delete_request
    rw [hfilter]
    rfl
  · intro log service df env2 t m h
    unfold DeletionOrchestrator._sync_service DeletionOrchestrator.sync_chunk
    rw [h]
  · intro log service df env2 e h
    unfold DeletionOrchestrator.sync_attempt
    rw [h]

/-- Witness for C6: a missing id returns the not-found signal; deleting the
sample movie with a raising radarr client still returns a log, and the
radarr sync appends `ACKNOWLEDGED` then `FAILED` with the exception text. -/
theorem delete_request_spec_witness :
    DeletionOrchestrator.delete_request [sample_movie_request] 999 true []
        env_radarr_raises 1 50 = Except.ok (none, [sample_movie_request]) ∧
    DeletionOrchestrator.delete_request [sample_movie_request] 9 true []
        env_radarr_raises 1 50 =
      Except.ok
        (some (DeletionOrchestrator.orchestrated_log sample_movie_request
          true [] env_radarr_raises 1 50),
         [sample_movie_request].filter fun x => decide (¬ x.id = 9)) ∧
    (DeletionOrchestrator._sync_service
        (DeletionOrchestrator._create_deletion_log 1 sample_movie_request 50)
        "radarr" true env_radarr_raises 50).sync_events =
      (DeletionOrchestrator._create_deletion_log 1 sample_movie_request
          50).sync_events ++
        [{ deletion_log_id :=
             (DeletionOrchestrator._create_deletion_log 1 sample_movie_request
               50).id,
           service := "radarr", status := ServiceSyncStatus.acknowledged,
           details := some ("Sending DELETE request to " ++ "radarr"),
           timestamp := 50 },
         { deletion_log_id :=
             (DeletionOrchestrator._create_deletion_log 1 sample_movie_request
               50).id,
           service := "radarr", status := ServiceSyncStatus.failed,
           error_message := some ("Exception: " ++ "connection refused"),
           timestamp := 50 }] :=
  ⟨(delete_request_spec [sample_movie_request] 999 true [] env_radarr_raises
      1 50 (by decide)).1 (by decide),
   (delete_request_spec [sample_movie_request] 9 true [] env_radarr_raises
      1 50 (by decide)).2.1 sample_movie_request
     (List.mem_singleton.mpr rfl) rfl,
   (delete_request_spec [sample_movie_request] 9 true [] env_radarr_raises
      1 50 (by decide)).2.2.1
     (DeletionOrchestrator._create_deletion_log 1 sample_movie_request 50)
     "radarr" true env_radarr_raises 50 ("Exception: " ++ "connection refused")
     rfl⟩

/-! ## Claim theorems: deletion status lattice (C7) -/

/-- C7 counterexample: three concrete runs of the combined flow write
per-service histories the claimed lattice does not allow. With sync disabled,
radarr goes `PENDING → SKIPPED` (not an immediate short-circuit); with
`delete_files = false`, jellyfin goes `PENDING → ACKNOWLEDGED → SKIPPED`;
and when the first verification pass still sees the item and the retry no
longer does, radarr goes `… CONFIRMED → FAILED → VERIFIED`, leaving the
lattice-terminal `FAILED`. -/
theorem deletion_lattice_counterexample :
    status_history cex_disabled_log.sync_events "radarr" =
      [ServiceSyncStatus.pending, ServiceSyncStatus.skipped] ∧
    claim_lattice_history
      [ServiceSyncStatus.pending, ServiceSyncStatus.skipped] = false ∧
    status_history cex_keepfiles_log.sync_events "jellyfin" =
      [ServiceSyncStatus.pending, ServiceSyncStatus.acknowledged,
       ServiceSyncStatus.skipped] ∧
    claim_lattice_history
      [ServiceSyncStatus.pending, ServiceSyncStatus.acknowledged,
       ServiceSyncStatus.skipped] = false ∧
    status_history cex_retry_log.sync_events "radarr" =
      [ServiceSyncStatus.pending, ServiceSyncStatus.acknowledged,
       ServiceSyncStatus.confirmed, ServiceSyncStatus.failed,
       ServiceSyncStatus.verified] ∧
    claim_lattice_history
      [ServiceSyncStatus.pending, ServiceSyncStatus.acknowledged,
       ServiceSyncStatus.confirmed, ServiceSyncStatus.failed,
       ServiceSyncStatus.verified] = false := by
  refine ⟨by decide, by decide, by decide, by decide, by decide, by decide⟩

theorem status_history_append (e1 e2 : List DeletionSyncEvent) (s : String) :
    status_history (e1 ++ e2) s =
      status_history e1 s ++ status_history e2 s := by
  simp [status_history]

theorem update_status_events (lg : DeletionLog) (now : Nat) :
    (DeletionOrchestrator._update_deletion_status lg now).sync_events =
      lg.sync_events := by
  simp only [DeletionOrchestrator._update_deletion_status]
  split_ifs <;> rfl

theorem check_completion_events (lg : DeletionLog) (now : Nat) :
    (DeletionVerifier._check_completion lg now).sync_events =
      lg.sync_events := by
  simp only [DeletionVerifier._check_completion]
  split_ifs <;> rfl

theorem sync_service_events (lg : DeletionLog) (t : String) (df : Bool)
    (env : DeletionOrchestrator.Env) (now : Nat) :
    (DeletionOrchestrator._sync_service lg t df env now).sync_events =
      lg.sync_events ++ DeletionOrchestrator.sync_chunk lg t df env now := rfl

theorem foldl_sync_events (df : Bool) (env : DeletionOrchestrator.Env)
    (now : Nat) :
    ∀ (ts : List String) (lg : DeletionLog),
      (ts.foldl
        (fun l t => DeletionOrchestrator._sync_service l t df env now)
        lg).sync_events =
      lg.sync_events ++
        (ts.map fun t =>
          DeletionOrchestrator.sync_chunk lg t df env now).flatten := by
  intro ts
  induction ts with
  | nil =>
    intro lg
    simp
  | cons t ts ih =>
    intro lg
    rw [List.foldl_cons, ih]
    have hs : ∀ u, DeletionOrchestrator.sync_chunk
        (DeletionOrchestrator._sync_service lg t df env now) u df env now =
        DeletionOrchestrator.sync_chunk lg u df env now := fun u => rfl
    simp only [hs, sync_service_events, List.map_cons, List.flatten_cons,
      List.append_assoc]

theorem foldl_skip_events (now : Nat) :
    ∀ (ts : List String) (lg : DeletionLog),
      (ts.foldl
        (fun lg2 s2 => add_sync_event lg2
          { deletion_log_id := lg2.id, service := s2,
            status := ServiceSyncStatus.skipped,
            details := some "Deletion sync disabled", timestamp := now })
        lg).sync_events =
      lg.sync_events ++
        ts.map (fun s2 =>
          ({ deletion_log_id := lg.id, service := s2,
             status := ServiceSyncStatus.skipped,
             details := some "Deletion sync disabled",
             timestamp := now } : DeletionSyncEvent)) := by
  intro ts
  induction ts with
  | nil =>
    intro lg
    simp
  | cons t ts ih =>
    intro lg
    rw [List.foldl_cons, ih]
    simp only [add_sync_event, List.map_cons, List.append_assoc]
    rfl

theorem sync_chunk_history_ne (lg : DeletionLog) (t : String) (df : Bool)
    (env : DeletionOrchestrator.Env) (now : Nat) (s : String)
    (h : ¬ t = s) :
    status_history (DeletionOrchestrator.sync_chunk lg t df env now) s =
      [] := by
  unfold DeletionOrchestrator.sync_chunk status_history
  cases DeletionOrchestrator.sync_attempt lg t df env with
  | result succ m => cases succ <;> simp [h]
  | early_skip d => simp [h]

theorem sync_chunk_history_self (lg : DeletionLog) (s : String) (df : Bool)
    (env : DeletionOrchestrator.Env) (now : Nat) :
    ∃ x, (x = ServiceSyncStatus.confirmed ∨ x = ServiceSyncStatus.failed
        ∨ x = ServiceSyncStatus.skipped) ∧
      status_history (DeletionOrchestrator.sync_chunk lg s df env now) s =
        [ServiceSyncStatus.acknowledged, x] := by
  unfold DeletionOrchestrator.sync_chunk status_history
  cases DeletionOrchestrator.sync_attempt lg s df env with
  | result succ m =>
    cases succ
    · exact ⟨ServiceSyncStatus.failed, Or.inr (Or.inl rfl), by simp⟩
    · exact ⟨ServiceSyncStatus.confirmed, Or.inl rfl, by simp⟩
  | early_skip d =>
    exact ⟨ServiceSyncStatus.skipped, Or.inr (Or.inr rfl), by simp⟩

theorem chunks_flatten_history_nil (lg : DeletionLog) (df : Bool)
    (env : DeletionOrchestrator.Env) (now : Nat) (s : String) :
    ∀ ts : List String, s ∉ ts →
      status_history
        ((ts.map fun t =>
          DeletionOrchestrator.sync_chunk lg t df env now).flatten) s = [] := by
  intro ts
  induction ts with
  | nil =>
    intro _
    rfl
  | cons t ts ih =>
    intro hs
    rw [List.map_cons, List.flatten_cons, status_history_append,
      sync_chunk_history_ne lg t df env now s
        (fun he => hs (he ▸ List.mem_cons_self t ts)),
      ih (fun hmem => hs (List.mem_cons_of_mem t hmem))]
    rfl

theorem chunks_flatten_history_self (lg : DeletionLog) (df : Bool)
    (env : DeletionOrchestrator.Env) (now : Nat) (s : String) :
    ∀ ts : List String, ts.Nodup → s ∈ ts →
      status_history
        ((ts.map fun t =>
          DeletionOrchestrator.sync_chunk lg t df env now).flatten) s =
      status_history (DeletionOrchestrator.sync_chunk lg s df env now) s := by
  intro ts
  induction ts with
  | nil =>
    intro _ hs
    cases hs
  | cons t ts ih =>
    intro hnd hs
    rw [List.nodup_cons] at hnd
    rw [List.map_cons, List.flatten_cons, status_history_append]
    rcases List.mem_cons.mp hs with rfl | hmem
    · rw [chunks_flatten_history_nil lg df env now s ts hnd.1, List.append_nil]
    · rw [sync_chunk_history_ne lg t df env now s
        (fun he => hnd.1 (he ▸ hmem)), ih hnd.2 hmem, List.nil_append]

theorem skip_events_history_nil (lgid : Nat) (now : Nat) (s : String) :
    ∀ ts : List String, s ∉ ts →
      status_history
        (ts.map fun s2 =>
          ({ deletion_log_id := lgid, service := s2,
             status := ServiceSyncStatus.skipped,
             details := some "Deletion sync disabled",
             timestamp := now } : DeletionSyncEvent)) s = [] := by
  intro ts
  induction ts with
  | nil =>
    intro _
    rfl
  | cons t ts ih =>
    intro hs
    rw [List.map_cons]
    show status_history (_ :: _) s = []
    unfold status_history
    rw [List.filter_cons,
      if_neg (by simp; exact fun he => hs (he ▸ List.mem_cons_self t ts))]
    exact ih (fun hmem => hs (List.mem_cons_of_mem t hmem))

theorem skip_events_history_self (lgid : Nat) (now : Nat) (s : String) :
    ∀ ts : List String, ts.Nodup → s ∈ ts →
      status_history
        (ts.map fun s2 =>
          ({ deletion_log_id := lgid, service := s2,
             status := ServiceSyncStatus.skipped,
             details := some "Deletion sync disabled",
             timestamp := now } : DeletionSyncEvent)) s =
      [ServiceSyncStatus.skipped] := by
  intro ts
  induction ts with
  | nil =>
    intro _ hs
    cases hs
  | cons t ts ih =>
    intro hnd hs
    rw [List.nodup_cons] at hnd
    rw [List.map_cons]
    rcases List.mem_cons.mp hs with rfl | hmem
    · show status_history (_ :: _) s = _
      unfold status_history
      rw [List.filter_cons, if_pos (by simp)]
      rw [List.map_cons]
      have := skip_events_history_nil lgid now s ts hnd.1
      unfold status_history at this
      rw [this]
    · show status_history (_ :: _) s = _
      unfold status_history
      rw [List.filter_cons, if_neg (by simp; exact fun he => hnd.1 (he ▸ hmem))]
      have := ih hnd.2 hmem
      unfold status_history at this
      rw [this]

theorem phase1_history (request : MediaRequest) (sk : List String)
    (log_id now : Nat) (s : String) :
    status_history
      (DeletionOrchestrator.phase1_events log_id
        (DeletionOrchestrator._determine_services request sk) now) s =
      ((DeletionOrchestrator._determine_services request sk).filter
        fun p => decide (p.1 = s)).map
        (fun p => DeletionOrchestrator.phase1_status p.2) := by
  unfold DeletionOrchestrator.phase1_events status_history
  rw [List.filter_map, List.map_map]
  rfl

theorem phase1_status_pending_iff (info : ServiceInfo) :
    DeletionOrchestrator.phase1_status info = ServiceSyncStatus.pending ↔
      (info.applicable && info.has_id && !info.skip) = true := by
  rcases info with ⟨a, h, k⟩
  cases a <;> cases h <;> cases k <;>
    simp [DeletionOrchestrator.phase1_status]

theorem phase1_status_short (info : ServiceInfo)
    (h : ¬ (info.applicable && info.has_id && !info.skip) = true) :
    DeletionOrchestrator.phase1_status info = ServiceSyncStatus.skipped ∨
    DeletionOrchestrator.phase1_status info = ServiceSyncStatus.not_needed ∨
    DeletionOrchestrator.phase1_status info =
      ServiceSyncStatus.not_applicable := by
  rcases info with ⟨a, hi, k⟩
  cases a <;> cases hi <;> cases k <;>
    simp_all [DeletionOrchestrator.phase1_status]

theorem to_sync_subset (request : MediaRequest) (sk : List String) :
    ∀ s ∈ DeletionOrchestrator._get_services_to_sync
      (DeletionOrchestrator._determine_services request sk),
      s ∈ known_services := by
  intro s hs
  unfold DeletionOrchestrator._get_services_to_sync at hs
  obtain ⟨p, hp, rfl⟩ := List.mem_map.mp hs
  have hmem : p.1 ∈ (DeletionOrchestrator._determine_services request
      sk).map Prod.fst :=
    List.mem_map_of_mem _ (List.mem_filter.mp hp).1
  rw [show (DeletionOrchestrator._determine_services request sk).map
      Prod.fst = known_services from rfl] at hmem
  exact hmem

theorem to_sync_nodup (request : MediaRequest) (sk : List String) :
    (DeletionOrchestrator._get_services_to_sync
      (DeletionOrchestrator._determine_services request sk)).Nodup := by
  unfold DeletionOrchestrator._get_services_to_sync
  have hsub : (((DeletionOrchestrator._determine_services request sk).filter
      fun p => p.2.applicable && p.2.has_id && !p.2.skip).map
        Prod.fst).Sublist
      ((DeletionOrchestrator._determine_services request sk).map Prod.fst) :=
    (List.filter_sublist _).map _
  have hnd : ((DeletionOrchestrator._determine_services request sk).map
      Prod.fst).Nodup := by
    rw [show (DeletionOrchestrator._determine_services request sk).map
        Prod.fst = known_services from rfl]
    decide
  exact List.Nodup.sublist hsub hnd

theorem sync_external_events (lg : DeletionLog) (services : List String)
    (df : Bool) (env : DeletionOrchestrator.Env) (now : Nat) :
    (DeletionOrchestrator._sync_external_services lg services df env
      now).sync_events =
      lg.sync_events ++
        ((known_services.filter fun s => decide (s ∈ services)).map fun t =>
          DeletionOrchestrator.sync_chunk lg t df env now).flatten := by
  simp only [DeletionOrchestrator._sync_external_services]
  rw [update_status_events, foldl_sync_events]

theorem orch_history_known (request : MediaRequest) (df : Bool)
    (sk : List String) (env : DeletionOrchestrator.Env) (log_id now : Nat)
    (s : String) (info : ServiceInfo)
    (hfil : ((DeletionOrchestrator._determine_services request sk).filter
        fun p => decide (p.1 = s)) = [(s, info)])
    (hmem : s ∈ DeletionOrchestrator._get_services_to_sync
        (DeletionOrchestrator._determine_services request sk) ↔
        (info.applicable && info.has_id && !info.skip) = true)
    (hknown : s ∈ known_services) :
    GoodHist (status_history
      (DeletionOrchestrator.orchestrated_log request df sk env log_id
        now).sync_events s) := by
  have hph : status_history
      (DeletionOrchestrator.phase1_log request sk log_id now).sync_events s =
      [DeletionOrchestrator.phase1_status info] := by
    show status_history
      (DeletionOrchestrator.phase1_events log_id
        (DeletionOrchestrator._determine_services request sk) now) s = _
    rw [phase1_history, hfil]
    rfl
  by_cases henv : env.enable_deletion_sync = true
  · -- sync enabled: pending services are synced in fixed order
    have hlog : DeletionOrchestrator.orchestrated_log request df sk env
        log_id now =
        DeletionOrchestrator._sync_external_services
          (DeletionOrchestrator.phase1_log request sk log_id now)
          (DeletionOrchestrator._get_services_to_sync
            (DeletionOrchestrator._determine_services request sk)) df env
          now := by
      simp only [DeletionOrchestrator.orchestrated_log, henv, if_true]
    rw [hlog, sync_external_events, status_history_append, hph]
    by_cases hsync : s ∈ DeletionOrchestrator._get_services_to_sync
        (DeletionOrchestrator._determine_services request sk)
    · have hpend : DeletionOrchestrator.phase1_status info =
          ServiceSyncStatus.pending :=
        (phase1_status_pending_iff info).mpr (hmem.mp hsync)
      have hord : s ∈ known_services.filter fun x =>
          decide (x ∈ DeletionOrchestrator._get_services_to_sync
            (DeletionOrchestrator._determine_services request sk)) :=
        List.mem_filter.mpr ⟨hknown, by simp [hsync]⟩
      have hordnd : (known_services.filter fun x =>
          decide (x ∈ DeletionOrchestrator._get_services_to_sync
            (DeletionOrchestrator._determine_services request sk))).Nodup :=
        List.Nodup.filter _ (by decide)
      rw [chunks_flatten_history_self _ df env now s _ hordnd hord]
      obtain ⟨x, hx, hchunk⟩ := sync_chunk_history_self
        (DeletionOrchestrator.phase1_log request sk log_id now) s df env now
      rw [hchunk, hpend]
      rcases hx with rfl | rfl | rfl
      · exact GoodHist.confirmed_tail [] (by simp)
      · exact GoodHist.sync_failed
      · exact GoodHist.sync_skipped
    · have hnord : s ∉ known_services.filter fun x =>
          decide (x ∈ DeletionOrchestrator._get_services_to_sync
            (DeletionOrchestrator._determine_services request sk)) := by
        intro hc
        exact hsync (by simpa using (List.mem_filter.mp hc).2)
      rw [chunks_flatten_history_nil _ df env now s _ hnord, List.append_nil]
      exact GoodHist.short _ (phase1_status_short info
        (fun hc => hsync (hmem.mpr hc)))
  · -- sync disabled: pending services are marked skipped
    have hlog : DeletionOrchestrator.orchestrated_log request df sk env
        log_id now =
        DeletionOrchestrator._update_deletion_status
          ((DeletionOrchestrator._get_services_to_sync
            (DeletionOrchestrator._determine_services request sk)).foldl
            (fun lg s2 =>
              add_sync_event lg
                { deletion_log_id := lg.id, service := s2,
                  status := ServiceSyncStatus.skipped,
                  details := some "Deletion sync disabled", timestamp := now })
            (DeletionOrchestrator.phase1_log request sk log_id now)) now := by
      simp only [DeletionOrchestrator.orchestrated_log, henv, if_false,
        Bool.false_eq_true]
    rw [hlog, update_status_events, foldl_skip_events, status_history_append,
      hph]
    by_cases hsync : s ∈ DeletionOrchestrator._get_services_to_sync
        (DeletionOrchestrator._determine_services request sk)
    · rw [skip_events_history_self _ now s _ (to_sync_nodup request sk) hsync]
      rw [(phase1_status_pending_iff info).mpr (hmem.mp hsync)]
      exact GoodHist.pending_skipped
    · rw [skip_events_history_nil _ now s _ hsync, List.append_nil]
      exact GoodHist.short _ (phase1_status_short info
        (fun hc => hsync (hmem.mpr hc)))

theorem orch_history_good (request : MediaRequest) (df : Bool)
    (sk : List String) (env : DeletionOrchestrator.Env) (log_id now : Nat)
    (s : String) :
    GoodHist (status_history
      (DeletionOrchestrator.orchestrated_log request df sk env log_id
        now).sync_events s) := by
  by_cases hk : s ∈ known_services
  · have hk2 := hk
    simp only [known_services, List.mem_cons, List.not_mem_nil,
      or_false] at hk2
    rcases hk2 with rfl | rfl | rfl | rfl | rfl
    · exact orch_history_known request df sk env log_id now _ _ rfl
        (by simp [DeletionOrchestrator._get_services_to_sync,
          DeletionOrchestrator._determine_services]) hk
    · exact orch_history_known request df sk env log_id now _ _ rfl
        (by simp [DeletionOrchestrator._get_services_to_sync,
          DeletionOrchestrator._determine_services]) hk
    · exact orch_history_known request df sk env log_id now _ _ rfl
        (by simp [DeletionOrchestrator._get_services_to_sync,
          DeletionOrchestrator._determine_services]) hk
    · exact orch_history_known request df sk env log_id now _ _ rfl
        (by simp [DeletionOrchestrator._get_services_to_sync,
          DeletionOrchestrator._determine_services]) hk
    · exact orch_history_known request df sk env log_id now _ _ rfl
        (by simp [DeletionOrchestrator._get_services_to_sync,
          DeletionOrchestrator._determine_services]) hk
  · -- a service outside the known set never gets any event
    have hph : status_history
        (DeletionOrchestrator.phase1_log request sk log_id now).sync_events
          s = [] := by
      show status_history
        (DeletionOrchestrator.phase1_events log_id
          (DeletionOrchestrator._determine_services request sk) now) s = _
      rw [phase1_history]
      rw [show ((DeletionOrchestrator._determine_services request sk).filter
          fun p => decide (p.1 = s)) = [] from List.filter_eq_nil_iff.mpr ?_]
      · rfl
      · intro p hp
        simp only [decide_eq_true_eq]
        intro hps
        have : p.1 ∈ (DeletionOrchestrator._determine_services request
            sk).map Prod.fst := List.mem_map_of_mem _ hp
        rw [show (DeletionOrchestrator._determine_services request sk).map
            Prod.fst = known_services from rfl] at this
        exact hk (hps ▸ this)
    have hnsync : s ∉ DeletionOrchestrator._get_services_to_sync
        (DeletionOrchestrator._determine_services request sk) :=
      fun hc => hk (to_sync_subset request sk s hc)
    by_cases henv : env.enable_deletion_sync = true
    · have hlog : DeletionOrchestrator.orchestrated_log request df sk env
          log_id now =
          DeletionOrchestrator._sync_external_services
            (DeletionOrchestrator.phase1_log request sk log_id now)
            (DeletionOrchestrator._get_services_to_sync
              (DeletionOrchestrator._determine_services request sk)) df env
            now := by
        simp only [DeletionOrchestrator.orchestrated_log, henv, if_true]
      have hnord : s ∉ known_services.filter fun x =>
          decide (x ∈ DeletionOrchestrator._get_services_to_sync
            (DeletionOrchestrator._determine_services request sk)) :=
        fun hc => hk (List.mem_filter.mp hc).1
      rw [hlog, sync_external_events, status_history_append, hph,
        chunks_flatten_history_nil _ df env now s _ hnord]
      exact GoodHist.nil
    · have hlog : DeletionOrchestrator.orchestrated_log request df sk env
          log_id now =
          DeletionOrchestrator._update_deletion_status
            ((DeletionOrchestrator._get_services_to_sync
              (DeletionOrchestrator._determine_services request sk)).foldl
              (fun lg s2 =>
                add_sync_event lg
                  { deletion_log_id := lg.id, service := s2,
                    status := ServiceSyncStatus.skipped,
                    details := some "Deletion sync disabled",
                    timestamp := now })
              (DeletionOrchestrator.phase1_log request sk log_id now))
            now := by
        simp only [DeletionOrchestrator.orchestrated_log, henv, if_false,
          Bool.false_eq_true]
      rw [hlog, update_status_events, foldl_skip_events,
        status_history_append, hph, skip_events_history_nil _ now s _ hnsync]
      exact GoodHist.nil

theorem verify_chunk_history_ne (lg : DeletionLog) (t : String)
    (venv : DeletionVerifier.VerifierEnv) (now : Nat) (s : String)
    (h : ¬ t = s) :
    status_history (DeletionVerifier.verify_chunk lg t venv now).1 s = [] := by
  unfold DeletionVerifier.verify_chunk status_history
  cases DeletionVerifier.verify_outcome lg t venv with
  | ok b => cases b <;> simp [h]
  | error e => simp [h]

theorem verify_chunk_history_self (lg : DeletionLog) (t : String)
    (venv : DeletionVerifier.VerifierEnv) (now : Nat) :
    ∃ x, (x = ServiceSyncStatus.verified ∨ x = ServiceSyncStatus.failed) ∧
      status_history (DeletionVerifier.verify_chunk lg t venv now).1 t =
        [x] := by
  unfold DeletionVerifier.verify_chunk status_history
  cases DeletionVerifier.verify_outcome lg t venv with
  | ok b =>
    cases b
    · exact ⟨ServiceSyncStatus.verified, Or.inl rfl, by simp⟩
    · exact ⟨ServiceSyncStatus.failed, Or.inr rfl, by simp⟩
  | error e => exact ⟨ServiceSyncStatus.failed, Or.inr rfl, by simp⟩

theorem services_to_verify_confirmed (lg : DeletionLog) (t : String)
    (h : t ∈ DeletionVerifier.services_to_verify lg) :
    ServiceSyncStatus.confirmed ∈ status_history lg.sync_events t := by
  unfold DeletionVerifier.services_to_verify at h
  rw [List.mem_dedup] at h
  obtain ⟨e, he, rfl⟩ := List.mem_map.mp h
  have hef := List.mem_filter.mp he
  unfold status_history
  exact List.mem_map.mpr ⟨e, List.mem_filter.mpr ⟨hef.1, by simp⟩,
    of_decide_eq_true hef.2⟩

theorem goodhist_append_verify {l : List ServiceSyncStatus} (hg : GoodHist l)
    (hc : ServiceSyncStatus.confirmed ∈ l) (x : ServiceSyncStatus)
    (hx : x = ServiceSyncStatus.verified ∨ x = ServiceSyncStatus.failed) :
    GoodHist (l ++ [x]) := by
  cases hg with
  | nil => cases hc
  | short st h => rcases h with rfl | rfl | rfl <;> simp at hc
  | pending_skipped => simp at hc
  | sync_failed => simp at hc
  | sync_skipped => simp at hc
  | confirmed_tail w hw =>
    rw [List.append_assoc]
    refine GoodHist.confirmed_tail (w ++ [x]) ?_
    intro y hy
    rcases List.mem_append.mp hy with hy | hy
    · exact hw y hy
    · rw [List.mem_singleton.mp hy]
      exact hx

theorem verify_fold_good (venv : DeletionVerifier.VerifierEnv) (now : Nat) :
    ∀ (ts : List String) (lg : DeletionLog) (b : Bool),
      (∀ s, GoodHist (status_history lg.sync_events s)) →
      (∀ t ∈ ts,
        ServiceSyncStatus.confirmed ∈ status_history lg.sync_events t) →
      ∀ s, GoodHist (status_history
        ((ts.foldl
          (fun acc s2 =>
            let r := DeletionVerifier._verify_service acc.1 s2 venv now
            (r.1, acc.2 && r.2))
          (lg, b)).1.sync_events) s) := by
  intro ts
  induction ts with
  | nil =>
    intro lg b hg _ s
    exact hg s
  | cons t ts ih =>
    intro lg b hg hconf s
    rw [List.foldl_cons]
    have hev : ((DeletionVerifier._verify_service lg t venv
        now).1).sync_events =
        lg.sync_events ++ (DeletionVerifier.verify_chunk lg t venv now).1 :=
      rfl
    have hg2 : ∀ s2, GoodHist (status_history
        ((DeletionVerifier._verify_service lg t venv now).1).sync_events
        s2) := by
      intro s2
      rw [hev, status_history_append]
      by_cases hts : t = s2
      · subst hts
        obtain ⟨x, hx, hchunk⟩ := verify_chunk_history_self lg t venv now
        rw [hchunk]
        exact goodhist_append_verify (hg t)
          (hconf t (List.mem_cons_self t ts)) x hx
      · rw [verify_chunk_history_ne lg t venv now s2 hts, List.append_nil]
        exact hg s2
    have hconf2 : ∀ u ∈ ts, ServiceSyncStatus.confirmed ∈ status_history
        ((DeletionVerifier._verify_service lg t venv now).1).sync_events
        u := by
      intro u hu
      rw [hev, status_history_append]
      exact List.mem_append_left _ (hconf u (List.mem_cons_of_mem t hu))
    exact ih _ _ hg2 hconf2 s

theorem verify_pass_good (lg : DeletionLog)
    (venv : DeletionVerifier.VerifierEnv) (now : Nat)
    (hg : ∀ s, GoodHist (status_history lg.sync_events s)) :
    ∀ s, GoodHist (status_history
      (DeletionVerifier.verify_pass lg venv now).1.sync_events s) := by
  intro s
  unfold DeletionVerifier.verify_pass
  exact verify_fold_good venv now (DeletionVerifier.services_to_verify lg)
    lg true hg (fun t ht => services_to_verify_confirmed lg t ht) s

theorem verify_go_good (venvs : Nat → DeletionVerifier.VerifierEnv)
    (now : Nat) :
    ∀ (fuel retry_count : Nat) (lg : DeletionLog),
      (∀ s, GoodHist (status_history lg.sync_events s)) →
      ∀ s, GoodHist (status_history
        (DeletionVerifier.verify_go venvs now fuel retry_count
          lg).sync_events s) := by
  intro fuel
  induction fuel with
  | zero =>
    intro rc lg hg s
    exact hg s
  | succ fuel ih =>
    intro rc lg hg s
    unfold DeletionVerifier.verify_go
    have hch : ∀ s2, GoodHist (status_history
        (DeletionVerifier._check_completion
          (DeletionVerifier.verify_pass lg (venvs rc) now).1
          now).sync_events s2) := by
      intro s2
      rw [check_completion_events]
      exact verify_pass_good lg (venvs rc) now hg s2
    split
    · exact hg s
    · split
      · exact ih (rc + 1) _ hch s
      · exact hch s

theorem except_bind_ok {α β : Type} (a : α) (f : α → Except String β) :
    (Except.ok a >>= f) = f a := rfl

theorem except_pure_eq {α : Type} (a : α) :
    (pure a : Except String α) = Except.ok a := rfl

theorem except_bind_error {α β : Type} (e : String)
    (f : α → Except String β) :
    ((Except.error e : Except String α) >>= f) = Except.error e := rfl

theorem delete_and_verify_shape (db : List MediaRequest) (request_id : Nat)
    (df : Bool) (sk : List String) (env : DeletionOrchestrator.Env)
    (venvs : Nat → DeletionVerifier.VerifierEnv) (log_id now : Nat)
    (log : DeletionLog) (db2 : List MediaRequest)
    (h : delete_and_verify db request_id df sk env venvs log_id now =
      Except.ok (some log, db2)) :
    ∃ r, log = DeletionVerifier.verify_deletion
      (DeletionOrchestrator.orchestrated_log r df sk env log_id now) venvs 0
      now := by
  unfold delete_and_verify DeletionOrchestrator.delete_request at h
  rcases hf : db.filter (fun x => decide (x.id = request_id)) with
    _ | ⟨a, _ | ⟨b2, tl⟩⟩ <;> rw [hf] at h
  · simp [scalar_one_or_none, except_bind_ok, except_pure_eq] at h
  · simp only [scalar_one_or_none, except_bind_ok, except_pure_eq,
      Except.ok.injEq, Prod.mk.injEq, Option.some.injEq] at h
    exact ⟨a, h.1.symm⟩
  · simp [scalar_one_or_none, except_bind_ok, except_bind_error,
      except_pure_eq] at h

/-- C7 (amended): over the combined orchestrate-then-verify flow, every
service's status history is one of: empty; a single short-circuit status
(`SKIPPED`/`NOT_NEEDED`/`NOT_APPLICABLE`); `PENDING, SKIPPED` (sync
disabled); `PENDING, ACKNOWLEDGED, FAILED`; `PENDING, ACKNOWLEDGED, SKIPPED`
(the `delete_files = false` carve-out); or `PENDING, ACKNOWLEDGED, CONFIRMED`
followed by one `VERIFIED`/`FAILED` result per verification pass — so
progress is forward except that verification re-checks every ever-confirmed
service, letting `FAILED` be followed by `VERIFIED` (and conversely) on
retries. -/
theorem deletion_history_spec (db : List MediaRequest) (request_id : Nat)
    (delete_files : Bool) (skip_services : List String)
    (env : DeletionOrchestrator.Env)
    (venvs : Nat → DeletionVerifier.VerifierEnv) (log_id now : Nat)
    (log : DeletionLog) (db2 : List MediaRequest)
    (h : delete_and_verify db request_id delete_files skip_services env venvs
      log_id now = Except.ok (some log, db2)) (s : String) :
    GoodHist (status_history log.sync_events s) := by
  obtain ⟨r, rfl⟩ := delete_and_verify_shape db request_id delete_files
    skip_services env venvs log_id now log db2 h
  unfold DeletionVerifier.verify_deletion
  exact verify_go_good venvs now _ 0 _
    (fun s2 => orch_history_good r delete_files skip_services env log_id now
      s2) s

/-- Witness for the amended C7 at the two concrete verification runs. -/
theorem deletion_history_spec_witness :
    GoodHist (status_history cex_retry_log.sync_events "radarr") ∧
    GoodHist (status_history cex_keepfiles_log.sync_events "jellyfin") :=
  ⟨deletion_history_spec [sample_movie_request] 9 true [] env_ok venvs_flaky
     1 50 cex_retry_log [] rfl "radarr",
   deletion_history_spec [sample_movie_request] 9 false [] env_ok venvs_gone
     1 50 cex_keepfiles_log [] rfl "jellyfin"⟩

end StatusTracker
